import Mathlib

/-
Shallow embedding of the LambdaTest TestCafe browser provider (the provider
object exported from the repository's main source file).

Modelling conventions:
- External asynchronous calls (the vendor helpers `_connect`, `_destroy`,
  `_parseCapabilities`, `_getBrowserList`, `_updateJobStatus`, `_saveFile`,
  and the `wd` WebDriver client methods) are modelled by an `Oracle` record
  giving each call's outcome (`Except JsErr _`): `.ok` models a resolved
  promise, `.error` a rejected one.
- Each provider operation is a pure function taking the configuration
  (environment variables and the constants imported from `./util`), the
  oracle, and the provider's state, and returning an `OpResult`: the
  operation's outcome (`.error e` models the returned promise rejecting
  with `e`), the new provider state, and the trace of observable events
  (external calls, `showTrace`/`console` logging, timer creation/clearing)
  in the order the operation performs them.
- `setInterval`/`clearInterval` timers are modelled by `setIntervalEv` /
  `clearIntervalEv` trace events carrying the timer id and period.
- JavaScript truthiness of a possibly-undefined string (environment
  variables, `sessionID`) is `truthyStr`: `undefined` and the empty string
  are falsy.
- The un-awaited `this.dispose()` calls in the error paths are inlined
  sequentially at the call site (their events belong to the invocation
  that caused them; no ordering claim depends on their interleaving).
-/

namespace Provider

/-- JavaScript truthiness of a string-or-undefined value: `undefined`
(`none`) and the empty string are falsy. -/
def truthyStr : Option String → Bool
  | none => false
  | some s => s ≠ ""

/-- String interpolation of a string-or-undefined value in a JS template
literal: `undefined` prints as "undefined". -/
def jsToString : Option String → String
  | none => "undefined"
  | some s => s

/-- An error value (a JS `Error`): the provider's own authentication error
`new Error(LT_AUTH_ERROR)`, or an error produced by an external call. -/
inductive JsErr where
  | ltAuthError
  | external (msg : String)
deriving DecidableEq, Repr

/-- A parsed capabilities object, as consumed by `_startBrowser`: the
`isRealMobile` flag that `_startBrowser` branches on, plus the rest of the
object kept opaque. -/
structure Caps where
  isRealMobile : Bool
  payload : String
deriving DecidableEq, Repr

/-- The observable fields of a WebDriver handle as stored in
`openedBrowsers`: `sessionID` (set by the `wd` client once the session is
initialized) and `pingIntervalId` (set by the `once('status')` handler
installed by `_startBrowser`). Both may be `undefined`. -/
structure Driver where
  sessionID : Option String
  pingIntervalId : Option Nat
deriving DecidableEq, Repr

/-- The provider object's own mutable/read state: `browserNames` (set by
`init`), `openedBrowsers` (session id → driver handle, as an association
list), and the `JOB_RESULT` property read by `reportJobResult`
(`this.JOB_RESULT`, injected onto the provider object by the test runner). -/
structure ProviderState where
  browserNames : List String
  openedBrowsers : List (String × Driver)
  JOB_RESULT : String
deriving DecidableEq, Repr

/-- `this.openedBrowsers[id]`: association-list lookup. -/
def findDriver : List (String × Driver) → String → Option Driver
  | [], _ => none
  | (k, v) :: rest, id => if k = id then some v else findDriver rest id

/-- `this.openedBrowsers[id] = webDriver`: overwrite the entry for `id`, or
append it if absent. -/
def updateDriver : List (String × Driver) → String → Driver → List (String × Driver)
  | [], id, d => [(id, d)]
  | (k, v) :: rest, id, d =>
    if k = id then (id, d) :: rest else (k, v) :: updateDriver rest id d

/-- Environment variables (`PROCESS_ENVIRONMENT`) and the constants imported
from `./util` that the provider reads: `LT_TUNNEL_NUMBER` and the dashboard
URL used to build the session URL string. -/
structure Config where
  LT_USERNAME : Option String
  LT_ACCESS_KEY : Option String
  LOG_LT_SESSION_URL : Option String
  LT_SESSION_LOG_PATH : Option String
  LT_TUNNEL_NUMBER : Nat
  AUTOMATION_DASHBOARD_URL : String

/-- An observable event in an operation's trace. -/
inductive Ev where
  /-- `showTrace(msg, ...)` logging. -/
  | trace (msg : String)
  /-- `console.log`. -/
  | consoleLog (msg : String)
  /-- `console.error`. -/
  | consoleError (msg : String)
  /-- `await _connect(tunnel)`. -/
  | connect (tunnel : Nat)
  /-- `await _destroy(tunnel)`. -/
  | destroy (tunnel : Nat)
  /-- `await _parseCapabilities(id, browserName)`. -/
  | parseCapabilities (id browserName : String)
  /-- `await _getBrowserList()`. -/
  | getBrowserListCall
  /-- `await wd.promiseChainRemote(...)` (mobile hub when the flag is true). -/
  | remote (mobile : Bool)
  /-- `await webDriver.init(capabilities).get(url)`. -/
  | wdInitGet (id : String) (capabilities : Caps) (url : String)
  /-- `await this.openedBrowsers[id].quit()`. -/
  | wdQuit (id : String)
  /-- `await this.openedBrowsers[id].takeScreenshot()`. -/
  | wdTakeScreenshot (id : String)
  /-- `await _saveFile(screenshotPath, base64Data)`. -/
  | saveFile (path data : String)
  /-- `await _updateJobStatus(sessionID, jobResult, jobData, this.JOB_RESULT)`. -/
  | updateJobStatus (sessionID jobResult jobData jobResultConst : String)
  /-- `await this.openedBrowsers[id].windowHandles()`. -/
  | windowHandles (id : String)
  /-- `await this.openedBrowsers[id].windowSize(handle, width, height)`. -/
  | windowSize (id handle : String) (width height : Nat)
  /-- `await this.openedBrowsers[id].maximize(handle)`. -/
  | maximize (id handle : String)
  /-- `setInterval(pingWebDriver, periodMs)` returning timer id `timerId`. -/
  | setIntervalEv (timerId periodMs : Nat)
  /-- `clearInterval(timerId)`; `none` models `clearInterval(undefined)`. -/
  | clearIntervalEv (timerId : Option Nat)
  /-- `await fs.appendFile(filePath, dataToAppend)`. -/
  | appendFile (path data : String)
  /-- `this.setUserAgentMetaInfo(id, sessionUrl)` (method of the base provider). -/
  | setUserAgentMetaInfo (id info : String)
deriving DecidableEq, Repr

/-- Outcomes of the external calls an invocation may make. `.ok` models the
awaited promise resolving, `.error` it rejecting. -/
structure Oracle where
  connectRes : Nat → Except JsErr Unit
  destroyRes : Nat → Except JsErr Unit
  /-- `_parseCapabilities` may reject (`.error`), resolve with an `Error`
  value (`.ok (.inr e)`, the `instanceof Error` case), or resolve with
  capabilities (`.ok (.inl caps)`). -/
  parseCapabilitiesRes : String → String → Except JsErr (Sum Caps JsErr)
  getBrowserListRes : Except JsErr (List String)
  remoteRes : Bool → Except JsErr Unit
  initGetRes : Except JsErr Unit
  /-- The `sessionID` the `wd` client assigns to the handle on successful init. -/
  assignedSessionID : Option String
  /-- Whether the driver's first `status` event fires (installing the ping timer). -/
  statusFires : Bool
  /-- The timer id returned by `setInterval`. -/
  freshTimerId : Nat
  quitRes : String → Except JsErr Unit
  screenshotRes : String → Except JsErr String
  saveFileRes : Except JsErr Unit
  updateJobStatusRes : Except JsErr String
  windowHandlesRes : String → Except JsErr String
  windowSizeRes : Except JsErr Unit
  maximizeRes : Except JsErr Unit
  appendFileRes : Except JsErr Unit

/-- The observable value of the driver handle `_startBrowser` builds and
stores (its `sessionID` as assigned by the `wd` client on successful init,
its `pingIntervalId` as set by the `once('status')` handler when it
fires). -/
def startDriver (o : Oracle) : Driver :=
  { sessionID :=
      match o.initGetRes with
      | .ok _ => o.assignedSessionID
      | .error _ => none,
    pingIntervalId := if o.statusFires then some o.freshTimerId else none }

/-- The result of running one provider operation: its outcome (`.error e`
models the operation's promise rejecting with `e`), the provider state
afterwards, and the trace of events in order. -/
structure OpResult (α : Type) where
  res : Except JsErr α
  st : ProviderState
  tr : List Ev

/-- `const WEB_DRIVER_PING_INTERVAL = 30 * 1000;` -/
def WEB_DRIVER_PING_INTERVAL : Nat := 30 * 1000

/-- A `for (let tunnel = 0; ...) await call(tunnel);` loop run over a list
of tunnel indices: awaits `call` on each index in order, stops at the first
rejection, which propagates. Returns the loop's outcome and the calls made
(event `ev t` per call). -/
def forLoopSeq (call : Nat → Except JsErr Unit) (ev : Nat → Ev) :
    List Nat → Except JsErr Unit × List Ev
  | [] => (.ok (), [])
  | t :: ts =>
    match call t with
    | .ok _ =>
      let r := forLoopSeq call ev ts
      (r.1, ev t :: r.2)
    | .error e => (.error e, [ev t])

/-- `for (let tunnel = 0; tunnel < LT_TUNNEL_NUMBER; tunnel++) await _destroy(tunnel);` -/
def destroySeq (o : Oracle) (l : List Nat) : Except JsErr Unit × List Ev :=
  forLoopSeq o.destroyRes Ev.destroy l

/-- `for (let tunnel = 0; tunnel < LT_TUNNEL_NUMBER; tunnel++) await _connect(tunnel);` -/
def connectSeq (o : Oracle) (l : List Nat) : Except JsErr Unit × List Ev :=
  forLoopSeq o.connectRes Ev.connect l

/-- `async dispose ()`: traces, destroys tunnels 0..LT_TUNNEL_NUMBER-1 in a
single try/catch (an error is traced and swallowed), traces completion.
Always resolves. -/
def dispose (cfg : Config) (o : Oracle) (st : ProviderState) : OpResult Unit :=
  let r := destroySeq o (List.range cfg.LT_TUNNEL_NUMBER)
  let errTr : List Ev :=
    match r.1 with
    | .ok _ => []
    | .error _ => [Ev.trace "Error while destroying ...", Ev.trace "err"]
  ⟨.ok (), st,
    Ev.trace "Dispose Initiated ..." :: r.2 ++ errTr ++ [Ev.trace "Dispose Completed"]⟩

/-- `async _startBrowser (id, url, capabilities)`: creates the remote
handle (mobile hub when `capabilities.isRealMobile`), installs the
`once('status')` handler that starts the ping interval, stores the handle
in `openedBrowsers[id]`, then awaits `init(capabilities).get(url)`; on
failure it fires `this.dispose()` and rethrows. -/
def startBrowser (cfg : Config) (o : Oracle) (st : ProviderState)
    (id url : String) (capabilities : Caps) : OpResult Unit :=
  let tr0 : List Ev :=
    [Ev.trace ("StartBrowser Initiated for " ++ id), Ev.consoleLog "capabilities",
     Ev.remote false]
  match o.remoteRes false with
  | .error e => ⟨.error e, st, tr0⟩
  | .ok _ =>
    let mobileStep : Except JsErr Unit × List Ev :=
      if capabilities.isRealMobile then (o.remoteRes true, [Ev.remote true])
      else (.ok (), [])
    match mobileStep.1 with
    | .error e => ⟨.error e, st, tr0 ++ mobileStep.2⟩
    | .ok _ =>
      let tr1 := tr0 ++ mobileStep.2 ++
        [Ev.trace "webDriver ", Ev.trace "pingWebDriver"]
      let webDriver : Driver := startDriver o
      let st1 : ProviderState :=
        { st with openedBrowsers := updateDriver st.openedBrowsers id webDriver }
      let statusTr : List Ev :=
        if o.statusFires then
          [Ev.setIntervalEv o.freshTimerId WEB_DRIVER_PING_INTERVAL,
           Ev.trace "pingIntervalId"]
        else []
      let tr2 := tr1 ++ [Ev.trace "capabilities", Ev.wdInitGet id capabilities url]
        ++ statusTr
      match o.initGetRes with
      | .ok _ => ⟨.ok (), st1, tr2⟩
      | .error e =>
        let d := dispose cfg o st1
        ⟨.error e, d.st,
          tr2 ++ d.tr ++ [Ev.trace ("Error while starting browser for " ++ id),
                          Ev.trace "err"]⟩

/-- `async writeSessionUrlToFile (sessionUrl, filePath)`: appends the URL
plus a newline; an append failure is caught and logged to `console.error`. -/
def writeSessionUrlToFile (o : Oracle) (st : ProviderState)
    (sessionUrl filePath : String) : OpResult Unit :=
  let dataToAppend := sessionUrl ++ "\n"
  match o.appendFileRes with
  | .ok _ => ⟨.ok (), st, [Ev.appendFile filePath dataToAppend]⟩
  | .error _ =>
    ⟨.ok (), st, [Ev.appendFile filePath dataToAppend,
                  Ev.consoleError "Error writing session URLs to file:"]⟩

/-- `async openBrowser (id, pageUrl, browserName)`: auth check, tunnel
connect loop, capability parsing (an `Error` value triggers
`this.dispose()` and a throw), `_startBrowser`, then session-URL logging
and user-agent metadata. -/
def openBrowser (cfg : Config) (o : Oracle) (st : ProviderState)
    (id pageUrl browserName : String) : OpResult Unit :=
  if ¬ truthyStr cfg.LT_USERNAME ∨ ¬ truthyStr cfg.LT_ACCESS_KEY then
    ⟨.error .ltAuthError, st, []⟩
  else
    let c := connectSeq o (List.range cfg.LT_TUNNEL_NUMBER)
    match c.1 with
    | .error e => ⟨.error e, st, c.2⟩
    | .ok _ =>
      match o.parseCapabilitiesRes id browserName with
      | .error e => ⟨.error e, st, c.2 ++ [Ev.parseCapabilities id browserName]⟩
      | .ok (.inr errVal) =>
        let d := dispose cfg o st
        ⟨.error errVal, d.st,
          c.2 ++ [Ev.parseCapabilities id browserName,
                  Ev.trace "openBrowser error on  _parseCapabilities"] ++ d.tr⟩
      | .ok (.inl capabilities) =>
        let sb := startBrowser cfg o st id pageUrl capabilities
        match sb.res with
        | .error e =>
          ⟨.error e, sb.st, c.2 ++ [Ev.parseCapabilities id browserName] ++ sb.tr⟩
        | .ok _ =>
          match findDriver sb.st.openedBrowsers id with
          | none =>
            -- `this.openedBrowsers[id].sessionID` on an absent entry would
            -- throw a TypeError (unreachable: `_startBrowser` stored it).
            ⟨.error (.external "TypeError"), sb.st,
              c.2 ++ [Ev.parseCapabilities id browserName] ++ sb.tr⟩
          | some d =>
            let sessionUrl := " " ++ cfg.AUTOMATION_DASHBOARD_URL
              ++ "/logs/?sessionID=" ++ jsToString d.sessionID ++ " "
            let logTr : List Ev :=
              if truthyStr cfg.LOG_LT_SESSION_URL then
                let filePath :=
                  match cfg.LT_SESSION_LOG_PATH with
                  | some p => if p ≠ "" then p else "sessionUrls.txt"
                  | none => "sessionUrls.txt"
                (writeSessionUrlToFile o sb.st sessionUrl filePath).tr
              else []
            ⟨.ok (), sb.st,
              c.2 ++ [Ev.parseCapabilities id browserName] ++ sb.tr ++ logTr
                ++ [Ev.trace ("sessionURL" ++ sessionUrl),
                    Ev.setUserAgentMetaInfo id sessionUrl]⟩

/-- `async closeBrowser (id)`: if an entry exists, clear its ping interval
and (when it has a truthy `sessionID`) await `quit()` with the error caught
and traced; always resolves. The entry is never removed. -/
def closeBrowser (o : Oracle) (st : ProviderState) (id : String) : OpResult Unit :=
  let tr0 : List Ev := [Ev.trace ("closeBrowser Initiated for " ++ id)]
  match findDriver st.openedBrowsers id with
  | none =>
    ⟨.ok (), st, tr0 ++ [Ev.trace ("Browser not found in OPEN STATE for " ++ id)]⟩
  | some d =>
    let tr1 := tr0 ++ [Ev.trace (jsToString d.sessionID),
                       Ev.clearIntervalEv d.pingIntervalId]
    if truthyStr d.sessionID then
      match o.quitRes id with
      | .ok _ => ⟨.ok (), st, tr1 ++ [Ev.wdQuit id]⟩
      | .error _ => ⟨.ok (), st, tr1 ++ [Ev.wdQuit id, Ev.trace "err"]⟩
    else
      ⟨.ok (), st, tr1 ++ [Ev.trace ("SessionID not found for " ++ id),
                           Ev.trace "driver"]⟩

/-- `async init ()`: `this.browserNames = await _getBrowserList();`. -/
def init (o : Oracle) (st : ProviderState) : OpResult Unit :=
  match o.getBrowserListRes with
  | .ok names => ⟨.ok (), { st with browserNames := names }, [Ev.getBrowserListCall]⟩
  | .error e => ⟨.error e, st, [Ev.getBrowserListCall]⟩

/-- `async getBrowserList ()`: returns `this.browserNames`. -/
def getBrowserList (st : ProviderState) : OpResult (List String) :=
  ⟨.ok st.browserNames, st, []⟩

/-- `async isValidBrowserName ()`: always returns `true`. -/
def isValidBrowserName (st : ProviderState) : OpResult Bool :=
  ⟨.ok true, st, []⟩

/-- `async resizeWindow (id, width, height)`: `windowHandles()` then
`windowSize(handle, width, height)`; no try/catch. An absent entry makes
the property access throw a TypeError. -/
def resizeWindow (o : Oracle) (st : ProviderState) (id : String)
    (width height : Nat) : OpResult Unit :=
  match findDriver st.openedBrowsers id with
  | none => ⟨.error (.external "TypeError"), st, []⟩
  | some _ =>
    match o.windowHandlesRes id with
    | .error e => ⟨.error e, st, [Ev.windowHandles id]⟩
    | .ok handle =>
      match o.windowSizeRes with
      | .ok _ =>
        ⟨.ok (), st, [Ev.windowHandles id, Ev.windowSize id handle width height]⟩
      | .error e =>
        ⟨.error e, st, [Ev.windowHandles id, Ev.windowSize id handle width height]⟩

/-- `async maximizeWindow (id)`: `windowHandles()` then `maximize(handle)`;
no try/catch. -/
def maximizeWindow (o : Oracle) (st : ProviderState) (id : String) : OpResult Unit :=
  match findDriver st.openedBrowsers id with
  | none => ⟨.error (.external "TypeError"), st, []⟩
  | some _ =>
    match o.windowHandlesRes id with
    | .error e => ⟨.error e, st, [Ev.windowHandles id]⟩
    | .ok handle =>
      match o.maximizeRes with
      | .ok _ => ⟨.ok (), st, [Ev.windowHandles id, Ev.maximize id handle]⟩
      | .error e => ⟨.error e, st, [Ev.windowHandles id, Ev.maximize id handle]⟩

/-- `async _takeScreenshot (id, screenshotPath)`: awaits the base64
screenshot data and passes it unchanged to `_saveFile`; no try/catch. -/
def takeScreenshotInternal (o : Oracle) (st : ProviderState)
    (id screenshotPath : String) : OpResult Unit :=
  match findDriver st.openedBrowsers id with
  | none => ⟨.error (.external "TypeError"), st, []⟩
  | some _ =>
    match o.screenshotRes id with
    | .error e => ⟨.error e, st, [Ev.wdTakeScreenshot id]⟩
    | .ok base64Data =>
      match o.saveFileRes with
      | .ok _ =>
        ⟨.ok (), st, [Ev.wdTakeScreenshot id, Ev.saveFile screenshotPath base64Data]⟩
      | .error e =>
        ⟨.error e, st, [Ev.wdTakeScreenshot id, Ev.saveFile screenshotPath base64Data]⟩

/-- `async takeScreenshot (id, screenshotPath)`: awaits
`this._takeScreenshot(id, screenshotPath)`. -/
def takeScreenshot (o : Oracle) (st : ProviderState)
    (id screenshotPath : String) : OpResult Unit :=
  takeScreenshotInternal o st id screenshotPath

/-- `async reportJobResult (id, jobResult, jobData)`: when
`this.openedBrowsers[id]` exists and its `sessionID` is truthy, calls
`_updateJobStatus(sessionID, jobResult, jobData, this.JOB_RESULT)` and
returns its result; otherwise returns `null` (`none`). -/
def reportJobResult (o : Oracle) (st : ProviderState)
    (id jobResult jobData : String) : OpResult (Option String) :=
  match findDriver st.openedBrowsers id with
  | some d =>
    if truthyStr d.sessionID then
      let sessionID := jsToString d.sessionID
      match o.updateJobStatusRes with
      | .ok r =>
        ⟨.ok (some r), st,
          [Ev.updateJobStatus sessionID jobResult jobData st.JOB_RESULT]⟩
      | .error e =>
        ⟨.error e, st,
          [Ev.updateJobStatus sessionID jobResult jobData st.JOB_RESULT]⟩
    else ⟨.ok none, st, []⟩
  | none => ⟨.ok none, st, []⟩

/-! Concrete fixtures used to evaluate the definitions on sample inputs. -/

/-- An oracle where every external call succeeds. -/
def okOracle : Oracle where
  connectRes := fun _ => .ok ()
  destroyRes := fun _ => .ok ()
  parseCapabilitiesRes := fun _ _ => .ok (.inl ⟨false, "caps"⟩)
  getBrowserListRes := .ok ["Chrome@latest:Windows 10"]
  remoteRes := fun _ => .ok ()
  initGetRes := .ok ()
  assignedSessionID := some "sess-1"
  statusFires := true
  freshTimerId := 77
  quitRes := fun _ => .ok ()
  screenshotRes := fun _ => .ok "aGVsbG8="
  saveFileRes := .ok ()
  updateJobStatusRes := .ok "updated"
  windowHandlesRes := fun _ => .ok "w0"
  windowSizeRes := .ok ()
  maximizeRes := .ok ()
  appendFileRes := .ok ()

/-- An oracle where `windowHandles()` rejects. -/
def windowErrOracle : Oracle :=
  { okOracle with windowHandlesRes := fun _ => .error (.external "boom") }

/-- An oracle where `_destroy(0)` rejects and every other call succeeds. -/
def destroy0ErrOracle : Oracle :=
  { okOracle with
    destroyRes := fun t => if t = 0 then .error (.external "tunnel down") else .ok () }

/-- A driver handle with a session id and a ping timer installed. -/
def sampleDriver : Driver := ⟨some "sess-1", some 77⟩

/-- A state holding one opened browser under id "b1". -/
def sampleState : ProviderState := ⟨["Chrome@latest:Windows 10"], [("b1", sampleDriver)], "passed"⟩

/-- `sampleState` with a different `JOB_RESULT` property and nothing else changed. -/
def sampleStateJobFailed : ProviderState := { sampleState with JOB_RESULT := "failed" }

/-- A state with no opened browsers. -/
def emptyState : ProviderState := ⟨[], [], "passed"⟩

/-- A configuration with credentials present and two tunnels. -/
def sampleConfig : Config :=
  ⟨some "user", some "key", none, none, 2, "https://automation.lambdatest.com"⟩

/-- `sampleConfig` without the `LT_USERNAME` environment variable. -/
def noUserConfig : Config := { sampleConfig with LT_USERNAME := none }

/-- The kinds of events `_startBrowser` can emit: logging, the handle
creations, its single `init(...).get(...)` call, the single ping-interval
installation, and the `_destroy` calls of the `dispose()` it fires on
failure. -/
def startBrowserEv (id : String) (caps : Caps) (url : String) (o : Oracle) : Ev → Bool
  | .trace _ => true
  | .consoleLog _ => true
  | .remote _ => true
  | .wdInitGet id' caps' url' => id' == id && caps' == caps && url' == url
  | .setIntervalEv tid per => tid == o.freshTimerId && per == WEB_DRIVER_PING_INTERVAL
  | .destroy _ => true
  | _ => false

/-- The kinds of events `openBrowser` can emit: the `_connect` calls, its
single `_parseCapabilities` call, everything `_startBrowser` and the
`dispose()` of the error path may emit, the session-URL logging, and the
user-agent metadata call. -/
def openBrowserEv (id browserName pageUrl : String) (o : Oracle) : Ev → Bool
  | .connect _ => true
  | .parseCapabilities id' bn' => id' == id && bn' == browserName
  | .trace _ => true
  | .consoleLog _ => true
  | .consoleError _ => true
  | .remote _ => true
  | .wdInitGet id' _ url' => id' == id && url' == pageUrl
  | .setIntervalEv tid per => tid == o.freshTimerId && per == WEB_DRIVER_PING_INTERVAL
  | .destroy _ => true
  | .appendFile _ _ => true
  | .setUserAgentMetaInfo _ _ => true
  | _ => false

/-- The kinds of events `writeSessionUrlToFile` can emit. -/
def writeSessionUrlEv : Ev → Bool
  | .appendFile _ _ => true
  | .consoleError _ => true
  | _ => false

/-- The kinds of events `closeBrowser` can emit: logging, the single
`clearInterval`, and the single `quit()` call. -/
def closeBrowserEv (id : String) : Ev → Bool
  | .trace _ => true
  | .clearIntervalEv _ => true
  | .wdQuit id' => id' == id
  | _ => false

/-! Helper lemmas about the loop combinator, the association list, and
`List.range`. -/

theorem forLoopSeq_all_ok (call : Nat → Except JsErr Unit) (ev : Nat → Ev) :
    ∀ l : List Nat, (∀ t ∈ l, call t = .ok ()) →
      forLoopSeq call ev l = (.ok (), l.map ev) := by
  intro l h
  induction l with
  | nil => rfl
  | cons t ts ih =>
    have ht : call t = .ok () := h t (List.mem_cons_self t ts)
    simp only [forLoopSeq, ht, List.map_cons]
    rw [ih (fun u hu => h u (List.mem_cons_of_mem t hu))]

theorem forLoopSeq_append_ok (call : Nat → Except JsErr Unit) (ev : Nat → Ev)
    (l₁ l₂ : List Nat) (h : ∀ s ∈ l₁, call s = .ok ()) :
    forLoopSeq call ev (l₁ ++ l₂) =
      ((forLoopSeq call ev l₂).1, l₁.map ev ++ (forLoopSeq call ev l₂).2) := by
  induction l₁ with
  | nil => simp
  | cons s ss ih =>
    have hs : call s = .ok () := h s (List.mem_cons_self s ss)
    simp only [List.cons_append, forLoopSeq, hs, List.map_cons, List.append_eq]
    rw [ih (fun u hu => h u (List.mem_cons_of_mem s hu))]

theorem forLoopSeq_mem (call : Nat → Except JsErr Unit) (ev : Nat → Ev) :
    ∀ l : List Nat, ∀ e ∈ (forLoopSeq call ev l).2, ∃ u ∈ l, e = ev u := by
  intro l
  induction l with
  | nil => intro e he; simp [forLoopSeq] at he
  | cons t ts ih =>
    intro e he
    simp only [forLoopSeq] at he
    cases hc : call t with
    | ok _ =>
      rw [hc] at he
      simp only [List.mem_cons] at he
      rcases he with he | he
      · exact ⟨t, List.mem_cons_self t ts, he⟩
      · obtain ⟨u, hu, hue⟩ := ih e he
        exact ⟨u, List.mem_cons_of_mem t hu, hue⟩
    | error err =>
      rw [hc] at he
      simp only [List.mem_singleton] at he
      exact ⟨t, List.mem_cons_self t ts, he⟩

theorem forLoopSeq_count_zero (call : Nat → Except JsErr Unit) (ev : Nat → Ev)
    (l : List Nat) (e : Ev) (h : ∀ u, e ≠ ev u) :
    (forLoopSeq call ev l).2.count e = 0 := by
  rw [List.count_eq_zero]
  intro hmem
  obtain ⟨u, _, hue⟩ := forLoopSeq_mem call ev l e hmem
  exact h u hue

theorem forLoopSeq_count_le_one (call : Nat → Except JsErr Unit) (ev : Nat → Ev)
    (hinj : Function.Injective ev) (t : Nat) :
    ∀ l : List Nat, l.Nodup → (forLoopSeq call ev l).2.count (ev t) ≤ 1 := by
  intro l
  induction l with
  | nil => intro _; simp [forLoopSeq]
  | cons s ss ih =>
    intro hnd
    rw [List.nodup_cons] at hnd
    simp only [forLoopSeq]
    cases hc : call s with
    | ok _ =>
      simp only [List.count_cons]
      by_cases hst : s = t
      · subst hst
        have hz : (forLoopSeq call ev ss).2.count (ev s) = 0 := by
          rw [List.count_eq_zero]
          intro hmem
          obtain ⟨u, hu, hue⟩ := forLoopSeq_mem call ev ss (ev s) hmem
          exact hnd.1 (hinj hue ▸ hu)
        simp [hz]
      · have : ¬ (ev s = ev t) := fun hb => hst (hinj hb)
        simp only [beq_iff_eq, this, if_false]
        simpa using ih hnd.2
    | error err =>
      simp only [List.count_cons, List.count_nil]
      split <;> simp

theorem destroy_injective : Function.Injective Ev.destroy := by
  intro a b h
  injection h

theorem connect_injective : Function.Injective Ev.connect := by
  intro a b h
  injection h

theorem findDriver_updateDriver_self (l : List (String × Driver)) (id : String)
    (d : Driver) : findDriver (updateDriver l id d) id = some d := by
  induction l with
  | nil => simp [updateDriver, findDriver]
  | cons kv rest ih =>
    by_cases h : kv.1 = id
    · simp [updateDriver, h, findDriver]
    · simp only [updateDriver, h, if_false, findDriver]
      exact ih

theorem findDriver_updateDriver_ne (l : List (String × Driver)) (id id' : String)
    (d : Driver) (h : id' ≠ id) :
    findDriver (updateDriver l id d) id' = findDriver l id' := by
  induction l with
  | nil => simp [updateDriver, findDriver, Ne.symm h]
  | cons kv rest ih =>
    by_cases hk : kv.1 = id
    · simp [updateDriver, hk, findDriver, Ne.symm h]
    · simp only [updateDriver, hk, if_false, findDriver]
      by_cases hk' : kv.1 = id'
      · simp [hk']
      · simp [hk', ih]

theorem destroySeq_mem (o : Oracle) (l : List Nat) :
    ∀ e ∈ (destroySeq o l).2, ∃ u ∈ l, e = Ev.destroy u :=
  forLoopSeq_mem o.destroyRes Ev.destroy l

theorem connectSeq_mem (o : Oracle) (l : List Nat) :
    ∀ e ∈ (connectSeq o l).2, ∃ u ∈ l, e = Ev.connect u :=
  forLoopSeq_mem o.connectRes Ev.connect l

theorem dispose_res (cfg : Config) (o : Oracle) (st : ProviderState) :
    (dispose cfg o st).res = .ok () := rfl

theorem dispose_st (cfg : Config) (o : Oracle) (st : ProviderState) :
    (dispose cfg o st).st = st := rfl

theorem dispose_mem (cfg : Config) (o : Oracle) (st : ProviderState) :
    ∀ e ∈ (dispose cfg o st).tr,
      (∃ m, e = Ev.trace m) ∨ ∃ u ∈ List.range cfg.LT_TUNNEL_NUMBER, e = Ev.destroy u := by
  intro e he
  simp only [dispose] at he
  rcases List.mem_cons.mp he with he1 | he2
  · exact Or.inl ⟨_, he1⟩
  rcases List.mem_append.mp he2 with h3 | h4
  · rcases List.mem_append.mp h3 with h5 | h6
    · exact Or.inr (destroySeq_mem o _ e h5)
    · rcases hr : (destroySeq o (List.range cfg.LT_TUNNEL_NUMBER)).1 with err | u
      · rw [hr] at h6
        rcases List.mem_cons.mp h6 with h7 | h8
        · exact Or.inl ⟨_, h7⟩
        · exact Or.inl ⟨_, List.mem_singleton.mp h8⟩
      · rw [hr] at h6
        simp at h6
  · exact Or.inl ⟨_, List.mem_singleton.mp h4⟩

theorem dispose_count_zero (cfg : Config) (o : Oracle) (st : ProviderState) (e : Ev)
    (htr : ∀ m, e ≠ Ev.trace m) (hd : ∀ u, e ≠ Ev.destroy u) :
    (dispose cfg o st).tr.count e = 0 := by
  rw [List.count_eq_zero]
  intro hmem
  rcases dispose_mem cfg o st e hmem with ⟨m, hm⟩ | ⟨u, _, hu⟩
  · exact htr m hm
  · exact hd u hu

theorem dispose_count_destroy_le_one (cfg : Config) (o : Oracle) (st : ProviderState)
    (t : Nat) : (dispose cfg o st).tr.count (Ev.destroy t) ≤ 1 := by
  have hloop : ((forLoopSeq o.destroyRes Ev.destroy
      (List.range cfg.LT_TUNNEL_NUMBER)).2).count (Ev.destroy t) ≤ 1 :=
    forLoopSeq_count_le_one o.destroyRes Ev.destroy destroy_injective t _
      (List.nodup_range cfg.LT_TUNNEL_NUMBER)
  rcases hr : (destroySeq o (List.range cfg.LT_TUNNEL_NUMBER)).1 with _ | err <;>
    simp only [destroySeq] at hr <;>
    simp [dispose, destroySeq, hr, List.count_cons, List.count_append] <;>
    omega

theorem dispose_all_startBrowserEv (cfg : Config) (o : Oracle) (st : ProviderState)
    (id : String) (caps : Caps) (url : String) :
    ∀ e ∈ (dispose cfg o st).tr, startBrowserEv id caps url o e = true := by
  intro e he
  rcases dispose_mem cfg o st e he with ⟨m, rfl⟩ | ⟨u, _, rfl⟩ <;> simp [startBrowserEv]

theorem startBrowser_mem (cfg : Config) (o : Oracle) (st : ProviderState)
    (id url : String) (caps : Caps) :
    ∀ e ∈ (startBrowser cfg o st id url caps).tr, startBrowserEv id caps url o e = true := by
  cases hr0 : o.remoteRes false <;>
    cases hm : caps.isRealMobile <;>
    cases hr1 : o.remoteRes true <;>
    cases hi : o.initGetRes <;>
    cases hs : o.statusFires <;>
    simp [startBrowser, hr0, hm, hr1, hi, hs, startBrowserEv, List.forall_mem_append]
  all_goals
    intro a ha
    rcases ha with ha | rfl | rfl
    · exact dispose_all_startBrowserEv cfg o _ id caps url a ha
    · simp [startBrowserEv]
    · simp [startBrowserEv]

theorem count_zero_of_all (l : List Ev) (P : Ev → Bool) (hall : ∀ e ∈ l, P e = true)
    (e : Ev) (he : P e = false) : l.count e = 0 := by
  rw [List.count_eq_zero]
  intro hm
  have htrue := hall e hm
  rw [he] at htrue
  cases htrue

theorem startBrowser_count_zero (cfg : Config) (o : Oracle) (st : ProviderState)
    (id url : String) (caps : Caps) (e : Ev) (he : startBrowserEv id caps url o e = false) :
    (startBrowser cfg o st id url caps).tr.count e = 0 :=
  count_zero_of_all _ _ (startBrowser_mem cfg o st id url caps) e he

theorem startBrowser_count_si_le_one (cfg : Config) (o : Oracle) (st : ProviderState)
    (id url : String) (caps : Caps) (tid per : Nat) :
    (startBrowser cfg o st id url caps).tr.count (Ev.setIntervalEv tid per) ≤ 1 := by
  have hd : ∀ st' : ProviderState,
      (dispose cfg o st').tr.count (Ev.setIntervalEv tid per) = 0 := fun st' =>
    dispose_count_zero cfg o st' _ (fun m => by simp) (fun u => by simp)
  cases hr0 : o.remoteRes false <;>
    cases hm : caps.isRealMobile <;>
    cases hr1 : o.remoteRes true <;>
    cases hi : o.initGetRes <;>
    cases hs : o.statusFires <;>
    simp [startBrowser, hr0, hm, hr1, hi, hs, List.count_cons, List.count_append, hd] <;>
    (try split) <;> simp

theorem startBrowser_count_ig_le_one (cfg : Config) (o : Oracle) (st : ProviderState)
    (id url : String) (caps : Caps) (id' : String) (caps' : Caps) (url' : String) :
    (startBrowser cfg o st id url caps).tr.count (Ev.wdInitGet id' caps' url') ≤ 1 := by
  have hd : ∀ st' : ProviderState,
      (dispose cfg o st').tr.count (Ev.wdInitGet id' caps' url') = 0 := fun st' =>
    dispose_count_zero cfg o st' _ (fun m => by simp) (fun u => by simp)
  cases hr0 : o.remoteRes false <;>
    cases hm : caps.isRealMobile <;>
    cases hr1 : o.remoteRes true <;>
    cases hi : o.initGetRes <;>
    cases hs : o.statusFires <;>
    simp [startBrowser, hr0, hm, hr1, hi, hs, List.count_cons, List.count_append, hd] <;>
    (try split) <;> simp

theorem startBrowser_count_destroy_le_one (cfg : Config) (o : Oracle) (st : ProviderState)
    (id url : String) (caps : Caps) (t : Nat) :
    (startBrowser cfg o st id url caps).tr.count (Ev.destroy t) ≤ 1 := by
  cases hr0 : o.remoteRes false <;>
    cases hm : caps.isRealMobile <;>
    cases hr1 : o.remoteRes true <;>
    cases hi : o.initGetRes <;>
    cases hs : o.statusFires <;>
    simp [startBrowser, hr0, hm, hr1, hi, hs, List.count_cons, List.count_append]
  all_goals exact dispose_count_destroy_le_one cfg o _ t

theorem startBrowser_st_cases (cfg : Config) (o : Oracle) (st : ProviderState)
    (id url : String) (caps : Caps) :
    (startBrowser cfg o st id url caps).st = st ∨
    ∃ d, (startBrowser cfg o st id url caps).st =
      { st with openedBrowsers := updateDriver st.openedBrowsers id d } := by
  cases hr0 : o.remoteRes false <;>
    cases hm : caps.isRealMobile <;>
    cases hr1 : o.remoteRes true <;>
    cases hi : o.initGetRes <;>
    cases hs : o.statusFires <;>
    simp [startBrowser, hr0, hm, hr1, hi, hs] <;>
    first
      | exact Or.inl rfl
      | exact Or.inr ⟨_, rfl⟩

theorem startBrowser_res_ok (cfg : Config) (o : Oracle) (st : ProviderState)
    (id url : String) (caps : Caps)
    (h : (startBrowser cfg o st id url caps).res = .ok ()) :
    o.initGetRes = .ok () ∧
    (startBrowser cfg o st id url caps).st =
      { st with openedBrowsers := updateDriver st.openedBrowsers id (startDriver o) } := by
  cases hr0 : o.remoteRes false <;>
    cases hm : caps.isRealMobile <;>
    cases hr1 : o.remoteRes true <;>
    cases hi : o.initGetRes <;>
    cases hs : o.statusFires <;>
    simp_all [startBrowser, hr0, hm, hr1, hi, hs]

theorem startBrowser_ok_setInterval (cfg : Config) (o : Oracle) (st : ProviderState)
    (id url : String) (caps : Caps)
    (h : (startBrowser cfg o st id url caps).res = .ok ())
    (hs : o.statusFires = true) :
    Ev.setIntervalEv o.freshTimerId WEB_DRIVER_PING_INTERVAL ∈
      (startBrowser cfg o st id url caps).tr := by
  cases hr0 : o.remoteRes false <;>
    cases hm : caps.isRealMobile <;>
    cases hr1 : o.remoteRes true <;>
    cases hi : o.initGetRes <;>
    simp_all [startBrowser, hr0, hm, hr1, hi, hs]

theorem startBrowserEv_implies_openBrowserEv (id : String) (caps : Caps)
    (url browserName : String) (o : Oracle) (e : Ev)
    (h : startBrowserEv id caps url o e = true) :
    openBrowserEv id browserName url o e = true := by
  cases e <;> simp_all [startBrowserEv, openBrowserEv]

theorem writeSessionUrlToFile_mem (o : Oracle) (st : ProviderState)
    (sessionUrl filePath : String) :
    ∀ e ∈ (writeSessionUrlToFile o st sessionUrl filePath).tr,
      writeSessionUrlEv e = true := by
  cases ha : o.appendFileRes <;>
    simp [writeSessionUrlToFile, ha, writeSessionUrlEv]

theorem writeSessionUrlToFile_all_openBrowserEv (o : Oracle) (st : ProviderState)
    (sessionUrl filePath id browserName pageUrl : String) :
    ∀ e ∈ (writeSessionUrlToFile o st sessionUrl filePath).tr,
      openBrowserEv id browserName pageUrl o e = true := by
  intro e he
  have hw := writeSessionUrlToFile_mem o st sessionUrl filePath e he
  cases e <;> simp_all [writeSessionUrlEv, openBrowserEv]

theorem dispose_all_openBrowserEv (cfg : Config) (o : Oracle) (st : ProviderState)
    (id browserName pageUrl : String) :
    ∀ e ∈ (dispose cfg o st).tr, openBrowserEv id browserName pageUrl o e = true := by
  intro e he
  rcases dispose_mem cfg o st e he with ⟨m, rfl⟩ | ⟨u, _, rfl⟩ <;> simp [openBrowserEv]

theorem connectSeq_all_openBrowserEv (o : Oracle) (l : List Nat)
    (id browserName pageUrl : String) :
    ∀ e ∈ (connectSeq o l).2, openBrowserEv id browserName pageUrl o e = true := by
  intro e he
  obtain ⟨u, _, rfl⟩ := connectSeq_mem o l e he
  simp [openBrowserEv]

theorem startBrowser_all_openBrowserEv (cfg : Config) (o : Oracle) (st : ProviderState)
    (id url : String) (caps : Caps) (browserName : String) :
    ∀ e ∈ (startBrowser cfg o st id url caps).tr,
      openBrowserEv id browserName url o e = true := fun e he =>
  startBrowserEv_implies_openBrowserEv id caps url browserName o e
    (startBrowser_mem cfg o st id url caps e he)

theorem openBrowser_mem (cfg : Config) (o : Oracle) (st : ProviderState)
    (id pageUrl browserName : String) :
    ∀ e ∈ (openBrowser cfg o st id pageUrl browserName).tr,
      openBrowserEv id browserName pageUrl o e = true := by
  by_cases hauth : truthyStr cfg.LT_USERNAME = false ∨ truthyStr cfg.LT_ACCESS_KEY = false
  · simp [openBrowser, hauth]
  · rcases hc : (connectSeq o (List.range cfg.LT_TUNNEL_NUMBER)).1 with e0 | u0
    · simp [openBrowser, hauth, hc]
      intro e he
      exact connectSeq_all_openBrowserEv o _ id browserName pageUrl e he
    · rcases hp : o.parseCapabilitiesRes id browserName with e1 | cv
      · simp [openBrowser, hauth, hc, hp]
        intro e he
        rcases he with he | rfl
        · exact connectSeq_all_openBrowserEv o _ id browserName pageUrl e he
        · simp [openBrowserEv]
      · rcases cv with caps | errv
        · rcases hsb : (startBrowser cfg o st id pageUrl caps).res with e2 | u2
          · simp [openBrowser, hauth, hc, hp, hsb]
            intro e he
            rcases he with he | rfl | he
            · exact connectSeq_all_openBrowserEv o _ id browserName pageUrl e he
            · simp [openBrowserEv]
            · exact startBrowser_all_openBrowserEv cfg o st id pageUrl caps browserName e he
          · rcases hfd : findDriver (startBrowser cfg o st id pageUrl caps).st.openedBrowsers id
              with _ | d
            · simp [openBrowser, hauth, hc, hp, hsb, hfd]
              intro e he
              rcases he with he | rfl | he
              · exact connectSeq_all_openBrowserEv o _ id browserName pageUrl e he
              · simp [openBrowserEv]
              · exact startBrowser_all_openBrowserEv cfg o st id pageUrl caps browserName e he
            · rcases hlog : truthyStr cfg.LOG_LT_SESSION_URL with _ | _
              · simp [openBrowser, hauth, hc, hp, hsb, hfd, hlog]
                intro e he
                rcases he with he | rfl | he | rfl | rfl
                · exact connectSeq_all_openBrowserEv o _ id browserName pageUrl e he
                · simp [openBrowserEv]
                · exact startBrowser_all_openBrowserEv cfg o st id pageUrl caps browserName e he
                · simp [openBrowserEv]
                · simp [openBrowserEv]
              · simp [openBrowser, hauth, hc, hp, hsb, hfd, hlog]
                intro e he
                rcases he with he | rfl | he | he | rfl | rfl
                · exact connectSeq_all_openBrowserEv o _ id browserName pageUrl e he
                · simp [openBrowserEv]
                · exact startBrowser_all_openBrowserEv cfg o st id pageUrl caps browserName e he
                · exact writeSessionUrlToFile_all_openBrowserEv o _ _ _ id browserName pageUrl e he
                · simp [openBrowserEv]
                · simp [openBrowserEv]
        · simp [openBrowser, hauth, hc, hp]
          intro e he
          rcases he with he | rfl | rfl | he
          · exact connectSeq_all_openBrowserEv o _ id browserName pageUrl e he
          · simp [openBrowserEv]
          · simp [openBrowserEv]
          · exact dispose_all_openBrowserEv cfg o st id browserName pageUrl e he

theorem openBrowser_count_zero (cfg : Config) (o : Oracle) (st : ProviderState)
    (id pageUrl browserName : String) (e : Ev)
    (he : openBrowserEv id browserName pageUrl o e = false) :
    (openBrowser cfg o st id pageUrl browserName).tr.count e = 0 :=
  count_zero_of_all _ _ (openBrowser_mem cfg o st id pageUrl browserName) e he

theorem openBrowser_counts (cfg : Config) (o : Oracle) (st : ProviderState)
    (id pageUrl browserName : String) (t : Nat) (caps' : Caps) :
    (openBrowser cfg o st id pageUrl browserName).tr.count (Ev.connect t) ≤ 1 ∧
    (openBrowser cfg o st id pageUrl browserName).tr.count
      (Ev.parseCapabilities id browserName) ≤ 1 ∧
    (openBrowser cfg o st id pageUrl browserName).tr.count
      (Ev.wdInitGet id caps' pageUrl) ≤ 1 ∧
    (openBrowser cfg o st id pageUrl browserName).tr.count (Ev.destroy t) ≤ 1 := by
  have hcc : (forLoopSeq o.connectRes Ev.connect
      (List.range cfg.LT_TUNNEL_NUMBER)).2.count (Ev.connect t) ≤ 1 :=
    forLoopSeq_count_le_one o.connectRes Ev.connect connect_injective t _
      (List.nodup_range _)
  have hcp : (forLoopSeq o.connectRes Ev.connect
      (List.range cfg.LT_TUNNEL_NUMBER)).2.count (Ev.parseCapabilities id browserName) = 0 :=
    forLoopSeq_count_zero _ _ _ _ (fun u => by simp)
  have hci : (forLoopSeq o.connectRes Ev.connect
      (List.range cfg.LT_TUNNEL_NUMBER)).2.count (Ev.wdInitGet id caps' pageUrl) = 0 :=
    forLoopSeq_count_zero _ _ _ _ (fun u => by simp)
  have hcd : (forLoopSeq o.connectRes Ev.connect
      (List.range cfg.LT_TUNNEL_NUMBER)).2.count (Ev.destroy t) = 0 :=
    forLoopSeq_count_zero _ _ _ _ (fun u => by simp)
  have hwz : ∀ (s : ProviderState) (u f : String) (e : Ev), writeSessionUrlEv e = false →
      (writeSessionUrlToFile o s u f).tr.count e = 0 := fun s u f e he =>
    count_zero_of_all _ _ (writeSessionUrlToFile_mem o s u f) e he
  by_cases hauth : truthyStr cfg.LT_USERNAME = false ∨ truthyStr cfg.LT_ACCESS_KEY = false
  · simp [openBrowser, hauth]
  · rcases hc : (connectSeq o (List.range cfg.LT_TUNNEL_NUMBER)).1 with e0 | u0
    · simp only [openBrowser, hauth, hc]
      simp [hauth, connectSeq] at hcc hcp hci hcd ⊢
      refine ⟨by omega, by omega, by omega, by omega⟩
    · rcases hp : o.parseCapabilitiesRes id browserName with e1 | cv
      · simp only [openBrowser, hauth, hc, hp]
        simp [hauth, connectSeq, List.count_append, List.count_cons] at hcc hcp hci hcd ⊢
        refine ⟨by omega, by omega, by omega, by omega⟩
      · rcases cv with caps | errv
        · have hsbc : (startBrowser cfg o st id pageUrl caps).tr.count (Ev.connect t) = 0 :=
            startBrowser_count_zero cfg o st id pageUrl caps _ rfl
          have hsbp : (startBrowser cfg o st id pageUrl caps).tr.count
              (Ev.parseCapabilities id browserName) = 0 :=
            startBrowser_count_zero cfg o st id pageUrl caps _ rfl
          have hsbi := startBrowser_count_ig_le_one cfg o st id pageUrl caps id caps' pageUrl
          have hsbd := startBrowser_count_destroy_le_one cfg o st id pageUrl caps t
          rcases hsb : (startBrowser cfg o st id pageUrl caps).res with e2 | u2
          · simp only [openBrowser, hauth, hc, hp, hsb]
            simp [hauth, connectSeq, List.count_append, List.count_cons] at hcc hcp hci hcd hsbc hsbp hsbi hsbd ⊢
            refine ⟨by omega, by omega, by omega, by omega⟩
          · rcases hfd : findDriver
                (startBrowser cfg o st id pageUrl caps).st.openedBrowsers id with _ | d
            · simp only [openBrowser, hauth, hc, hp, hsb, hfd]
              simp [hauth, connectSeq, List.count_append, List.count_cons] at hcc hcp hci hcd hsbc hsbp hsbi hsbd ⊢
              refine ⟨by omega, by omega, by omega, by omega⟩
            · rcases hlog : truthyStr cfg.LOG_LT_SESSION_URL with _ | _
              · simp only [openBrowser, hauth, hc, hp, hsb, hfd, hlog]
                simp [hauth, connectSeq, List.count_append, List.count_cons] at hcc hcp hci hcd hsbc hsbp hsbi hsbd ⊢
                refine ⟨by omega, by omega, by omega, by omega⟩
              · have hw1 := hwz (startBrowser cfg o st id pageUrl caps).st
                  (" " ++ cfg.AUTOMATION_DASHBOARD_URL ++ "/logs/?sessionID=" ++
                    jsToString d.sessionID ++ " ")
                  (match cfg.LT_SESSION_LOG_PATH with
                    | some p => if p ≠ "" then p else "sessionUrls.txt"
                    | none => "sessionUrls.txt")
                have hw1c := hw1 (Ev.connect t) rfl
                have hw1p := hw1 (Ev.parseCapabilities id browserName) rfl
                have hw1i := hw1 (Ev.wdInitGet id caps' pageUrl) rfl
                have hw1d := hw1 (Ev.destroy t) rfl
                simp only [openBrowser, hauth, hc, hp, hsb, hfd, hlog]
                simp [hauth, connectSeq, List.count_append, List.count_cons] at hcc hcp hci hcd hsbc hsbp hsbi hsbd hw1c hw1p hw1i hw1d ⊢
                refine ⟨by omega, by omega, by omega, by omega⟩
        · have hdd := dispose_count_destroy_le_one cfg o st t
          have hdc : (dispose cfg o st).tr.count (Ev.connect t) = 0 :=
            dispose_count_zero cfg o st _ (fun m => by simp) (fun u => by simp)
          have hdp : (dispose cfg o st).tr.count (Ev.parseCapabilities id browserName) = 0 :=
            dispose_count_zero cfg o st _ (fun m => by simp) (fun u => by simp)
          have hdi : (dispose cfg o st).tr.count (Ev.wdInitGet id caps' pageUrl) = 0 :=
            dispose_count_zero cfg o st _ (fun m => by simp) (fun u => by simp)
          simp only [openBrowser, hauth, hc, hp]
          simp [hauth, connectSeq, List.count_append, List.count_cons] at hcc hcp hci hcd hdd hdc hdp hdi ⊢
          refine ⟨by omega, by omega, by omega, by omega⟩

theorem closeBrowser_res (o : Oracle) (st : ProviderState) (id : String) :
    (closeBrowser o st id).res = .ok () := by
  rcases hfd : findDriver st.openedBrowsers id with _ | d
  · simp [closeBrowser, hfd]
  · rcases htr : truthyStr d.sessionID with _ | _ <;>
      rcases hq : o.quitRes id with e | u <;>
      simp [closeBrowser, hfd, htr, hq]

theorem closeBrowser_st (o : Oracle) (st : ProviderState) (id : String) :
    (closeBrowser o st id).st = st := by
  rcases hfd : findDriver st.openedBrowsers id with _ | d
  · simp [closeBrowser, hfd]
  · rcases htr : truthyStr d.sessionID with _ | _ <;>
      rcases hq : o.quitRes id with e | u <;>
      simp [closeBrowser, hfd, htr, hq]

theorem closeBrowser_mem (o : Oracle) (st : ProviderState) (id : String) :
    ∀ e ∈ (closeBrowser o st id).tr, closeBrowserEv id e = true := by
  rcases hfd : findDriver st.openedBrowsers id with _ | d
  · simp [closeBrowser, hfd, closeBrowserEv]
  · rcases htr : truthyStr d.sessionID with _ | _ <;>
      rcases hq : o.quitRes id with e | u <;>
      simp [closeBrowser, hfd, htr, hq, closeBrowserEv]

theorem closeBrowser_count_zero (o : Oracle) (st : ProviderState) (id : String)
    (e : Ev) (he : closeBrowserEv id e = false) : (closeBrowser o st id).tr.count e = 0 :=
  count_zero_of_all _ _ (closeBrowser_mem o st id) e he

theorem closeBrowser_clear (o : Oracle) (st : ProviderState) (id : String) (d : Driver)
    (hfd : findDriver st.openedBrowsers id = some d) :
    (closeBrowser o st id).tr.count (Ev.clearIntervalEv d.pingIntervalId) = 1 := by
  rcases htr : truthyStr d.sessionID with _ | _ <;>
    rcases hq : o.quitRes id with e | u <;>
    simp [closeBrowser, hfd, htr, hq, List.count_cons]

theorem closeBrowser_no_clear (o : Oracle) (st : ProviderState) (id : String)
    (hfd : findDriver st.openedBrowsers id = none) :
    ∀ tid, Ev.clearIntervalEv tid ∉ (closeBrowser o st id).tr := by
  intro tid
  simp [closeBrowser, hfd]

theorem closeBrowser_quit_le_one (o : Oracle) (st : ProviderState) (id id' : String) :
    (closeBrowser o st id).tr.count (Ev.wdQuit id') ≤ 1 := by
  rcases hfd : findDriver st.openedBrowsers id with _ | d
  · simp [closeBrowser, hfd]
  · rcases htr : truthyStr d.sessionID with _ | _ <;>
      rcases hq : o.quitRes id with e | u <;>
      simp [closeBrowser, hfd, htr, hq, List.count_cons] <;>
      (try split) <;> simp

theorem range_split (t n : Nat) (h : t < n) :
    ∃ l₂, List.range n = List.range t ++ t :: l₂ := by
  obtain ⟨k, hk⟩ := Nat.exists_eq_add_of_lt h
  subst hk
  refine ⟨(List.range k).map (fun x => t + 1 + x), ?_⟩
  rw [show t + k + 1 = t + (k + 1) by omega, List.range_add]
  congr 1
  rw [List.range_succ_eq_map]
  simp only [List.map_cons, Nat.add_zero, List.map_map]
  congr 1
  apply List.map_congr_left
  intro x _
  simp only [Function.comp_apply]
  omega

theorem destroySeq_first_fail (o : Oracle) (t n : Nat) (e : JsErr) (ht : t < n)
    (he : o.destroyRes t = .error e) (hok : ∀ s, s < t → o.destroyRes s = .ok ()) :
    destroySeq o (List.range n) =
      (.error e, (List.range t).map Ev.destroy ++ [Ev.destroy t]) := by
  obtain ⟨l₂, hl⟩ := range_split t n ht
  rw [destroySeq, hl, forLoopSeq_append_ok o.destroyRes Ev.destroy _ _
    (fun s hs => hok s (List.mem_range.mp hs))]
  simp [forLoopSeq, he]

theorem destroySeq_all_ok (o : Oracle) (n : Nat)
    (h : ∀ t, t < n → o.destroyRes t = .ok ()) :
    destroySeq o (List.range n) = (.ok (), (List.range n).map Ev.destroy) := by
  rw [destroySeq, forLoopSeq_all_ok o.destroyRes Ev.destroy _
    (fun t htm => h t (List.mem_range.mp htm))]

theorem connectSeq_all_ok (o : Oracle) (n : Nat)
    (h : ∀ t, t < n → o.connectRes t = .ok ()) :
    connectSeq o (List.range n) = (.ok (), (List.range n).map Ev.connect) := by
  rw [connectSeq, forLoopSeq_all_ok o.connectRes Ev.connect _
    (fun t htm => h t (List.mem_range.mp htm))]

theorem resizeWindow_st (o : Oracle) (st : ProviderState) (id : String) (w h : Nat) :
    (resizeWindow o st id w h).st = st := by
  rcases hfd : findDriver st.openedBrowsers id with _ | d <;>
    rcases hw : o.windowHandlesRes id with e | hdl <;>
    rcases hs : o.windowSizeRes with e2 | u <;>
    simp [resizeWindow, hfd, hw, hs]

theorem maximizeWindow_st (o : Oracle) (st : ProviderState) (id : String) :
    (maximizeWindow o st id).st = st := by
  rcases hfd : findDriver st.openedBrowsers id with _ | d <;>
    rcases hw : o.windowHandlesRes id with e | hdl <;>
    rcases hs : o.maximizeRes with e2 | u <;>
    simp [maximizeWindow, hfd, hw, hs]

theorem takeScreenshotInternal_st (o : Oracle) (st : ProviderState) (id p : String) :
    (takeScreenshotInternal o st id p).st = st := by
  rcases hfd : findDriver st.openedBrowsers id with _ | d <;>
    rcases hsc : o.screenshotRes id with e | data <;>
    rcases hsv : o.saveFileRes with e2 | u <;>
    simp [takeScreenshotInternal, hfd, hsc, hsv]

theorem reportJobResult_st (o : Oracle) (st : ProviderState) (id jobResult jobData : String) :
    (reportJobResult o st id jobResult jobData).st = st := by
  rcases hfd : findDriver st.openedBrowsers id with _ | d
  · simp [reportJobResult, hfd]
  · rcases htr : truthyStr d.sessionID with _ | _ <;>
      rcases hu : o.updateJobStatusRes with e | r <;>
      simp [reportJobResult, hfd, htr, hu]

theorem resizeWindow_no_timer (o : Oracle) (st : ProviderState) (id : String)
    (w h : Nat) (tid per : Nat) (tid? : Option Nat) :
    Ev.setIntervalEv tid per ∉ (resizeWindow o st id w h).tr ∧
    Ev.clearIntervalEv tid? ∉ (resizeWindow o st id w h).tr := by
  rcases hfd : findDriver st.openedBrowsers id with _ | d <;>
    rcases hw : o.windowHandlesRes id with e | hdl <;>
    rcases hs : o.windowSizeRes with e2 | u <;>
    simp [resizeWindow, hfd, hw, hs]

theorem maximizeWindow_no_timer (o : Oracle) (st : ProviderState) (id : String)
    (tid per : Nat) (tid? : Option Nat) :
    Ev.setIntervalEv tid per ∉ (maximizeWindow o st id).tr ∧
    Ev.clearIntervalEv tid? ∉ (maximizeWindow o st id).tr := by
  rcases hfd : findDriver st.openedBrowsers id with _ | d <;>
    rcases hw : o.windowHandlesRes id with e | hdl <;>
    rcases hs : o.maximizeRes with e2 | u <;>
    simp [maximizeWindow, hfd, hw, hs]

theorem takeScreenshotInternal_no_timer (o : Oracle) (st : ProviderState) (id p : String)
    (tid per : Nat) (tid? : Option Nat) :
    Ev.setIntervalEv tid per ∉ (takeScreenshotInternal o st id p).tr ∧
    Ev.clearIntervalEv tid? ∉ (takeScreenshotInternal o st id p).tr := by
  rcases hfd : findDriver st.openedBrowsers id with _ | d <;>
    rcases hsc : o.screenshotRes id with e | data <;>
    rcases hsv : o.saveFileRes with e2 | u <;>
    simp [takeScreenshotInternal, hfd, hsc, hsv]

theorem reportJobResult_no_timer (o : Oracle) (st : ProviderState)
    (id jobResult jobData : String) (tid per : Nat) (tid? : Option Nat) :
    Ev.setIntervalEv tid per ∉ (reportJobResult o st id jobResult jobData).tr ∧
    Ev.clearIntervalEv tid? ∉ (reportJobResult o st id jobResult jobData).tr := by
  rcases hfd : findDriver st.openedBrowsers id with _ | d
  · simp [reportJobResult, hfd]
  · rcases htr : truthyStr d.sessionID with _ | _ <;>
      rcases hu : o.updateJobStatusRes with e | r <;>
      simp [reportJobResult, hfd, htr, hu]

theorem init_no_timer (o : Oracle) (st : ProviderState) (tid per : Nat) (tid? : Option Nat) :
    Ev.setIntervalEv tid per ∉ (init o st).tr ∧
    Ev.clearIntervalEv tid? ∉ (init o st).tr := by
  rcases hg : o.getBrowserListRes with e | names <;> simp [init, hg]

theorem dispose_no_timer (cfg : Config) (o : Oracle) (st : ProviderState)
    (tid per : Nat) (tid? : Option Nat) :
    Ev.setIntervalEv tid per ∉ (dispose cfg o st).tr ∧
    Ev.clearIntervalEv tid? ∉ (dispose cfg o st).tr := by
  constructor <;>
  · intro hm
    rcases dispose_mem cfg o st _ hm with ⟨m, hmm⟩ | ⟨u, _, hmm⟩ <;> cases hmm

theorem closeBrowser_no_setInterval (o : Oracle) (st : ProviderState) (id : String)
    (tid per : Nat) : Ev.setIntervalEv tid per ∉ (closeBrowser o st id).tr := by
  intro hm
  have := closeBrowser_mem o st id _ hm
  simp [closeBrowserEv] at this

theorem startBrowser_no_clearInterval (cfg : Config) (o : Oracle) (st : ProviderState)
    (id url : String) (caps : Caps) (tid? : Option Nat) :
    Ev.clearIntervalEv tid? ∉ (startBrowser cfg o st id url caps).tr := by
  intro hm
  have := startBrowser_mem cfg o st id url caps _ hm
  simp [startBrowserEv] at this

theorem openBrowser_no_clearInterval (cfg : Config) (o : Oracle) (st : ProviderState)
    (id pageUrl browserName : String) (tid? : Option Nat) :
    Ev.clearIntervalEv tid? ∉ (openBrowser cfg o st id pageUrl browserName).tr := by
  intro hm
  have := openBrowser_mem cfg o st id pageUrl browserName _ hm
  simp [openBrowserEv] at this

theorem startBrowser_setInterval_shape (cfg : Config) (o : Oracle) (st : ProviderState)
    (id url : String) (caps : Caps) (tid per : Nat)
    (hm : Ev.setIntervalEv tid per ∈ (startBrowser cfg o st id url caps).tr) :
    tid = o.freshTimerId ∧ per = WEB_DRIVER_PING_INTERVAL := by
  have := startBrowser_mem cfg o st id url caps _ hm
  simpa [startBrowserEv] using this

theorem openBrowser_setInterval_shape (cfg : Config) (o : Oracle) (st : ProviderState)
    (id pageUrl browserName : String) (tid per : Nat)
    (hm : Ev.setIntervalEv tid per ∈ (openBrowser cfg o st id pageUrl browserName).tr) :
    tid = o.freshTimerId ∧ per = WEB_DRIVER_PING_INTERVAL := by
  have := openBrowser_mem cfg o st id pageUrl browserName _ hm
  simpa [openBrowserEv] using this

theorem closeBrowser_clear_shape (o : Oracle) (st : ProviderState) (id : String)
    (d : Driver) (hfd : findDriver st.openedBrowsers id = some d) (tid? : Option Nat)
    (hm : Ev.clearIntervalEv tid? ∈ (closeBrowser o st id).tr) :
    tid? = d.pingIntervalId := by
  rcases htr : truthyStr d.sessionID with _ | _ <;>
    rcases hq : o.quitRes id with e | u <;>
    simp [closeBrowser, hfd, htr, hq] at hm <;>
    simp [hm]

theorem resizeWindow_reads (o : Oracle) (st st' : ProviderState) (id : String) (w h : Nat)
    (hf : findDriver st.openedBrowsers id = findDriver st'.openedBrowsers id) :
    (resizeWindow o st id w h).res = (resizeWindow o st' id w h).res ∧
    (resizeWindow o st id w h).tr = (resizeWindow o st' id w h).tr := by
  rcases hfd : findDriver st'.openedBrowsers id with _ | d <;>
  · have h2 := hf.trans hfd
    rcases hw : o.windowHandlesRes id with e | hdl <;>
      rcases hs : o.windowSizeRes with e2 | u <;>
      simp [resizeWindow, hfd, h2, hw, hs]

theorem maximizeWindow_reads (o : Oracle) (st st' : ProviderState) (id : String)
    (hf : findDriver st.openedBrowsers id = findDriver st'.openedBrowsers id) :
    (maximizeWindow o st id).res = (maximizeWindow o st' id).res ∧
    (maximizeWindow o st id).tr = (maximizeWindow o st' id).tr := by
  rcases hfd : findDriver st'.openedBrowsers id with _ | d <;>
  · have h2 := hf.trans hfd
    rcases hw : o.windowHandlesRes id with e | hdl <;>
      rcases hs : o.maximizeRes with e2 | u <;>
      simp [maximizeWindow, hfd, h2, hw, hs]

theorem takeScreenshotInternal_reads (o : Oracle) (st st' : ProviderState) (id p : String)
    (hf : findDriver st.openedBrowsers id = findDriver st'.openedBrowsers id) :
    (takeScreenshotInternal o st id p).res = (takeScreenshotInternal o st' id p).res ∧
    (takeScreenshotInternal o st id p).tr = (takeScreenshotInternal o st' id p).tr := by
  rcases hfd : findDriver st'.openedBrowsers id with _ | d <;>
  · have h2 := hf.trans hfd
    rcases hsc : o.screenshotRes id with e | data <;>
      rcases hsv : o.saveFileRes with e2 | u <;>
      simp [takeScreenshotInternal, hfd, h2, hsc, hsv]

theorem closeBrowser_reads (o : Oracle) (st st' : ProviderState) (id : String)
    (hf : findDriver st.openedBrowsers id = findDriver st'.openedBrowsers id) :
    (closeBrowser o st id).res = (closeBrowser o st' id).res ∧
    (closeBrowser o st id).tr = (closeBrowser o st' id).tr := by
  rcases hfd : findDriver st'.openedBrowsers id with _ | d
  · have h2 := hf.trans hfd
    simp [closeBrowser, hfd, h2]
  · have h2 := hf.trans hfd
    rcases htr : truthyStr d.sessionID with _ | _ <;>
      rcases hq : o.quitRes id with e | u <;>
      simp [closeBrowser, hfd, h2, htr, hq]

theorem reportJobResult_reads (o : Oracle) (st st' : ProviderState)
    (id jobResult jobData : String)
    (hf : findDriver st.openedBrowsers id = findDriver st'.openedBrowsers id)
    (hj : st.JOB_RESULT = st'.JOB_RESULT) :
    (reportJobResult o st id jobResult jobData).res =
      (reportJobResult o st' id jobResult jobData).res ∧
    (reportJobResult o st id jobResult jobData).tr =
      (reportJobResult o st' id jobResult jobData).tr := by
  rcases hfd : findDriver st'.openedBrowsers id with _ | d
  · have h2 := hf.trans hfd
    simp [reportJobResult, hfd, h2]
  · have h2 := hf.trans hfd
    rcases htr : truthyStr d.sessionID with _ | _ <;>
      rcases hu : o.updateJobStatusRes with e | r <;>
      simp [reportJobResult, hfd, h2, htr, hu, hj]

theorem openBrowser_st_cases (cfg : Config) (o : Oracle) (st : ProviderState)
    (id pageUrl browserName : String) :
    (openBrowser cfg o st id pageUrl browserName).st = st ∨
    ∃ d, (openBrowser cfg o st id pageUrl browserName).st =
      { st with openedBrowsers := updateDriver st.openedBrowsers id d } := by
  by_cases hauth : truthyStr cfg.LT_USERNAME = false ∨ truthyStr cfg.LT_ACCESS_KEY = false
  · left
    simp [openBrowser, hauth]
  · rcases hc : (connectSeq o (List.range cfg.LT_TUNNEL_NUMBER)).1 with e0 | u0
    · left
      simp [openBrowser, hauth, hc]
    · rcases hp : o.parseCapabilitiesRes id browserName with e1 | cv
      · left
        simp [openBrowser, hauth, hc, hp]
      · rcases cv with caps | errv
        · rcases hsb : (startBrowser cfg o st id pageUrl caps).res with e2 | u2
          · rcases startBrowser_st_cases cfg o st id pageUrl caps with hst | ⟨d, hst⟩
            · left
              simp [openBrowser, hauth, hc, hp, hsb, hst]
            · right
              exact ⟨d, by simp [openBrowser, hauth, hc, hp, hsb, hst]⟩
          · rcases hfd : findDriver
                (startBrowser cfg o st id pageUrl caps).st.openedBrowsers id with _ | d2
            · rcases startBrowser_st_cases cfg o st id pageUrl caps with hst | ⟨d, hst⟩
              · rw [hst] at hfd
                left
                simp [openBrowser, hauth, hc, hp, hsb, hfd, hst]
              · rw [hst] at hfd
                right
                exact ⟨d, by simp [openBrowser, hauth, hc, hp, hsb, hfd, hst]⟩
            · rcases startBrowser_st_cases cfg o st id pageUrl caps with hst | ⟨d, hst⟩
              · rw [hst] at hfd
                left
                simp [openBrowser, hauth, hc, hp, hsb, hfd, hst]
              · rw [hst] at hfd
                right
                exact ⟨d, by simp [openBrowser, hauth, hc, hp, hsb, hfd, hst]⟩
        · left
          simp [openBrowser, hauth, hc, hp, dispose]

/-! The claims. -/

/-- C7: `takeScreenshot(id, screenshotPath)` is a pure pass-through wrapper:
it is equivalent to the internal helper `_takeScreenshot(id, screenshotPath)`,
which awaits the base64 screenshot data from
`openedBrowsers[id].takeScreenshot()` and passes it unchanged to
`_saveFile(screenshotPath, base64Data)`, performing no other effects and
mutating no provider state. -/
theorem claim7_takeScreenshot_passthrough (o : Oracle) (st : ProviderState)
    (id screenshotPath : String) :
    takeScreenshot o st id screenshotPath = takeScreenshotInternal o st id screenshotPath ∧
    (takeScreenshotInternal o st id screenshotPath).st = st ∧
    (∀ d data, findDriver st.openedBrowsers id = some d →
      o.screenshotRes id = .ok data → o.saveFileRes = .ok () →
      takeScreenshotInternal o st id screenshotPath =
        ⟨.ok (), st, [Ev.wdTakeScreenshot id, Ev.saveFile screenshotPath data]⟩) := by
  refine ⟨rfl, takeScreenshotInternal_st o st id screenshotPath, ?_⟩
  intro d data hfd hsc hsv
  simp [takeScreenshotInternal, hfd, hsc, hsv]

/-- Witness for C7 at a concrete session: the screenshot data is passed
unchanged to `_saveFile`. -/
theorem claim7_witness :
    takeScreenshotInternal okOracle sampleState "b1" "shot.png" =
      ⟨.ok (), sampleState, [Ev.wdTakeScreenshot "b1", Ev.saveFile "shot.png" "aGVsbG8="]⟩ :=
  (claim7_takeScreenshot_passthrough okOracle sampleState "b1" "shot.png").2.2
    sampleDriver "aGVsbG8=" rfl rfl rfl

/-- C8: `reportJobResult(id, jobResult, jobData)` returns `null` and performs
no job-status update whenever `openedBrowsers` has no entry for `id` or that
entry has no (truthy) `sessionID`; it calls
`_updateJobStatus(sessionID, jobResult, jobData, JOB_RESULT)` exactly when
both an entry and its `sessionID` exist, and returns that call's result. -/
theorem claim8_reportJobResult (o : Oracle) (st : ProviderState)
    (id jobResult jobData : String) :
    ((findDriver st.openedBrowsers id = none ∨
      ∃ d, findDriver st.openedBrowsers id = some d ∧ truthyStr d.sessionID = false) →
      reportJobResult o st id jobResult jobData = ⟨.ok none, st, []⟩) ∧
    (∀ d, findDriver st.openedBrowsers id = some d → truthyStr d.sessionID = true →
      (reportJobResult o st id jobResult jobData).tr =
        [Ev.updateJobStatus (jsToString d.sessionID) jobResult jobData st.JOB_RESULT] ∧
      (reportJobResult o st id jobResult jobData).res = o.updateJobStatusRes.map some) := by
  constructor
  · intro hcase
    rcases hcase with hfd | ⟨d, hfd, htr⟩
    · simp [reportJobResult, hfd]
    · simp [reportJobResult, hfd, htr]
  · intro d hfd htr
    rcases hu : o.updateJobStatusRes with e | r <;>
      simp [reportJobResult, hfd, htr, hu, Except.map]

/-- Witness for C8 at a concrete session with a truthy `sessionID`: the
update call is made with the stored session id and `JOB_RESULT`. -/
theorem claim8_witness :
    (reportJobResult okOracle sampleState "b1" "passed" "jobdata").tr =
      [Ev.updateJobStatus "sess-1" "passed" "jobdata" "passed"] ∧
    reportJobResult okOracle emptyState "b1" "passed" "jobdata" =
      ⟨.ok none, emptyState, []⟩ :=
  ⟨((claim8_reportJobResult okOracle sampleState "b1" "passed" "jobdata").2
      sampleDriver rfl rfl).1,
   (claim8_reportJobResult okOracle emptyState "b1" "passed" "jobdata").1 (Or.inl rfl)⟩

/-- C9: `closeBrowser(id)` never removes the session entry: after it
completes, `openedBrowsers` is unchanged (every entry, including `id`, maps
to the same driver handle), and its trace consists only of logging, the
`clearInterval` of the ping timer, and the `quit()` attempt. -/
theorem claim9_closeBrowser_frame (o : Oracle) (st : ProviderState) (id : String) :
    (closeBrowser o st id).st = st ∧
    findDriver (closeBrowser o st id).st.openedBrowsers id =
      findDriver st.openedBrowsers id ∧
    (∀ e ∈ (closeBrowser o st id).tr, closeBrowserEv id e = true) :=
  ⟨closeBrowser_st o st id,
   by rw [closeBrowser_st],
   closeBrowser_mem o st id⟩

/-- Witness for C9 at a concrete state: the entry survives `closeBrowser`
and the `quit()` event is of the allowed kind. -/
theorem claim9_witness :
    (closeBrowser okOracle sampleState "b1").st = sampleState ∧
    closeBrowserEv "b1" (Ev.wdQuit "b1") = true :=
  ⟨(claim9_closeBrowser_frame okOracle sampleState "b1").1,
   (claim9_closeBrowser_frame okOracle sampleState "b1").2.2 (Ev.wdQuit "b1") (by decide)⟩

/-- C10: `isValidBrowserName` resolves to `true` for every input: the
provider accepts any browser name as valid, performing no check against
`browserNames` or anything else (no state change, no external call). -/
theorem claim10_isValidBrowserName (st : ProviderState) :
    isValidBrowserName st = ⟨.ok true, st, []⟩ := rfl

/-- C6: no retry or backoff: within any single invocation of `openBrowser`,
`_startBrowser`, `closeBrowser`, or `dispose`, each underlying remote call
(`_connect` per tunnel, `_parseCapabilities`, `webDriver.init`,
`webDriver.quit`, `_destroy` per tunnel) is issued at most once per target
and is never reissued after a failure. -/
theorem claim6_no_retry (cfg : Config) (o : Oracle) (st : ProviderState)
    (id pageUrl browserName url : String) (caps caps' : Caps) (t : Nat) :
    ((openBrowser cfg o st id pageUrl browserName).tr.count (Ev.connect t) ≤ 1 ∧
     (openBrowser cfg o st id pageUrl browserName).tr.count
       (Ev.parseCapabilities id browserName) ≤ 1 ∧
     (openBrowser cfg o st id pageUrl browserName).tr.count
       (Ev.wdInitGet id caps' pageUrl) ≤ 1 ∧
     (openBrowser cfg o st id pageUrl browserName).tr.count (Ev.destroy t) ≤ 1 ∧
     (openBrowser cfg o st id pageUrl browserName).tr.count (Ev.wdQuit id) = 0) ∧
    ((startBrowser cfg o st id url caps).tr.count (Ev.wdInitGet id caps' url) ≤ 1 ∧
     (startBrowser cfg o st id url caps).tr.count (Ev.destroy t) ≤ 1 ∧
     (startBrowser cfg o st id url caps).tr.count (Ev.connect t) = 0 ∧
     (startBrowser cfg o st id url caps).tr.count (Ev.wdQuit id) = 0) ∧
    ((closeBrowser o st id).tr.count (Ev.wdQuit id) ≤ 1 ∧
     (closeBrowser o st id).tr.count (Ev.connect t) = 0 ∧
     (closeBrowser o st id).tr.count (Ev.destroy t) = 0) ∧
    ((dispose cfg o st).tr.count (Ev.destroy t) ≤ 1 ∧
     (dispose cfg o st).tr.count (Ev.connect t) = 0) := by
  obtain ⟨h1, h2, h3, h4⟩ := openBrowser_counts cfg o st id pageUrl browserName t caps'
  refine ⟨⟨h1, h2, h3, h4, ?_⟩, ⟨?_, ?_, ?_, ?_⟩, ⟨?_, ?_, ?_⟩, ⟨?_, ?_⟩⟩
  · exact openBrowser_count_zero cfg o st id pageUrl browserName _ rfl
  · exact startBrowser_count_ig_le_one cfg o st id url caps id caps' url
  · exact startBrowser_count_destroy_le_one cfg o st id url caps t
  · exact startBrowser_count_zero cfg o st id url caps _ rfl
  · exact startBrowser_count_zero cfg o st id url caps _ rfl
  · exact closeBrowser_quit_le_one o st id id
  · exact closeBrowser_count_zero o st id _ rfl
  · exact closeBrowser_count_zero o st id _ rfl
  · exact dispose_count_destroy_le_one cfg o st t
  · exact dispose_count_zero cfg o st _ (fun m => by simp) (fun u => by simp)

/-- Counterexample to C5 as stated: two provider states agreeing on
`openedBrowsers` and `browserNames` but differing in the `JOB_RESULT`
property produce different `reportJobResult` behavior, so the operation
reads provider state beyond the session map and `browserNames`. -/
theorem claim5_counterexample :
    sampleState.openedBrowsers = sampleStateJobFailed.openedBrowsers ∧
    sampleState.browserNames = sampleStateJobFailed.browserNames ∧
    (reportJobResult okOracle sampleState "b1" "passed" "jobdata").tr ≠
      (reportJobResult okOracle sampleStateJobFailed "b1" "passed" "jobdata").tr :=
  ⟨rfl, rfl, by decide⟩

/-- C5 (amended): the provider's mutable state is exactly `openedBrowsers`
plus `browserNames` set by `init`: `_startBrowser` (and hence `openBrowser`)
writes at most the entry under the given id, `init` writes at most
`browserNames`, every other operation leaves the state unchanged; every
per-session operation depends only on the entry `openedBrowsers[id]` —
except that `reportJobResult` additionally reads the `JOB_RESULT` property
injected onto the provider object by the test runner. -/
theorem claim5_amended_state (cfg : Config) (o : Oracle) (st st' : ProviderState)
    (id pageUrl browserName url screenshotPath jobResult jobData : String)
    (caps : Caps) (w h : Nat) :
    (resizeWindow o st id w h).st = st ∧
    (maximizeWindow o st id).st = st ∧
    (takeScreenshotInternal o st id screenshotPath).st = st ∧
    (takeScreenshot o st id screenshotPath).st = st ∧
    (reportJobResult o st id jobResult jobData).st = st ∧
    (closeBrowser o st id).st = st ∧
    (dispose cfg o st).st = st ∧
    ((startBrowser cfg o st id url caps).st = st ∨
      ∃ d, (startBrowser cfg o st id url caps).st =
        { st with openedBrowsers := updateDriver st.openedBrowsers id d }) ∧
    ((openBrowser cfg o st id pageUrl browserName).st = st ∨
      ∃ d, (openBrowser cfg o st id pageUrl browserName).st =
        { st with openedBrowsers := updateDriver st.openedBrowsers id d }) ∧
    ((init o st).st = st ∨ ∃ ns, (init o st).st = { st with browserNames := ns }) ∧
    (findDriver st.openedBrowsers id = findDriver st'.openedBrowsers id →
      ((resizeWindow o st id w h).res = (resizeWindow o st' id w h).res ∧
       (resizeWindow o st id w h).tr = (resizeWindow o st' id w h).tr) ∧
      ((maximizeWindow o st id).res = (maximizeWindow o st' id).res ∧
       (maximizeWindow o st id).tr = (maximizeWindow o st' id).tr) ∧
      ((takeScreenshotInternal o st id screenshotPath).res =
         (takeScreenshotInternal o st' id screenshotPath).res ∧
       (takeScreenshotInternal o st id screenshotPath).tr =
         (takeScreenshotInternal o st' id screenshotPath).tr) ∧
      ((closeBrowser o st id).res = (closeBrowser o st' id).res ∧
       (closeBrowser o st id).tr = (closeBrowser o st' id).tr) ∧
      (st.JOB_RESULT = st'.JOB_RESULT →
        (reportJobResult o st id jobResult jobData).res =
          (reportJobResult o st' id jobResult jobData).res ∧
        (reportJobResult o st id jobResult jobData).tr =
          (reportJobResult o st' id jobResult jobData).tr)) := by
  refine ⟨resizeWindow_st o st id w h, maximizeWindow_st o st id,
    takeScreenshotInternal_st o st id screenshotPath,
    takeScreenshotInternal_st o st id screenshotPath,
    reportJobResult_st o st id jobResult jobData,
    closeBrowser_st o st id, dispose_st cfg o st,
    startBrowser_st_cases cfg o st id url caps,
    openBrowser_st_cases cfg o st id pageUrl browserName, ?_, ?_⟩
  · rcases hg : o.getBrowserListRes with e | names
    · left; simp [init, hg]
    · right; exact ⟨names, by simp [init, hg]⟩
  · intro hf
    exact ⟨resizeWindow_reads o st st' id w h hf,
      maximizeWindow_reads o st st' id hf,
      takeScreenshotInternal_reads o st st' id screenshotPath hf,
      closeBrowser_reads o st st' id hf,
      fun hj => reportJobResult_reads o st st' id jobResult jobData hf hj⟩

/-- Witness for C5 (amended) at concrete states: `resizeWindow` behaves
identically on two states agreeing at the looked-up id. -/
theorem claim5_witness :
    (resizeWindow okOracle sampleState "b1" 800 600).res =
      (resizeWindow okOracle sampleStateJobFailed "b1" 800 600).res :=
  (((claim5_amended_state sampleConfig okOracle sampleState sampleStateJobFailed
      "b1" "http://x" "chrome" "http://x" "shot.png" "passed" "jobdata"
      ⟨false, "caps"⟩ 800 600).2.2.2.2.2.2.2.2.2.2 rfl).1).1

/-- Counterexample to C3 as stated: with `LT_TUNNEL_NUMBER = 2` and
`_destroy(0)` rejecting, `dispose` still resolves but never awaits
`_destroy(1)` — the try/catch wraps the whole loop, so the remaining
tunnels are not destroyed. -/
theorem claim3_counterexample :
    (dispose sampleConfig destroy0ErrOracle sampleState).res = .ok () ∧
    Ev.destroy 1 ∉ (dispose sampleConfig destroy0ErrOracle sampleState).tr :=
  ⟨rfl, by decide⟩

/-- C3 (amended): `dispose` awaits `_destroy(tunnel)` for tunnel indices in
increasing order starting at 0, but stops at the first failure (the
try/catch wraps the whole loop): when every call succeeds it destroys all
of 0 .. LT_TUNNEL_NUMBER-1 in order; when `_destroy(t)` is the first to
fail, the calls are exactly 0 .. t, the error is caught and logged, and in
every case `dispose` resolves. -/
theorem claim3_amended_dispose (cfg : Config) (o : Oracle) (st : ProviderState) :
    (dispose cfg o st).res = .ok () ∧
    ((∀ t, t < cfg.LT_TUNNEL_NUMBER → o.destroyRes t = .ok ()) →
      (dispose cfg o st).tr =
        Ev.trace "Dispose Initiated ..." ::
          (List.range cfg.LT_TUNNEL_NUMBER).map Ev.destroy ++
          [Ev.trace "Dispose Completed"]) ∧
    (∀ t e, t < cfg.LT_TUNNEL_NUMBER → o.destroyRes t = .error e →
      (∀ s, s < t → o.destroyRes s = .ok ()) →
      (dispose cfg o st).tr =
        Ev.trace "Dispose Initiated ..." ::
          (List.range t).map Ev.destroy ++ [Ev.destroy t] ++
          [Ev.trace "Error while destroying ...", Ev.trace "err",
           Ev.trace "Dispose Completed"]) := by
  refine ⟨dispose_res cfg o st, ?_, ?_⟩
  · intro hok
    have hd := destroySeq_all_ok o cfg.LT_TUNNEL_NUMBER hok
    simp [dispose, hd]
  · intro t e ht he hok
    have hd := destroySeq_first_fail o t cfg.LT_TUNNEL_NUMBER e ht he hok
    simp [dispose, hd]

/-- Witness for C3 (amended): with two tunnels and all calls succeeding the
trace destroys tunnels 0 and 1 in order; with `_destroy(0)` failing the
trace stops at tunnel 0 and logs the error. -/
theorem claim3_witness :
    (dispose sampleConfig okOracle sampleState).tr =
      Ev.trace "Dispose Initiated ..." ::
        (List.range 2).map Ev.destroy ++ [Ev.trace "Dispose Completed"] ∧
    (dispose sampleConfig destroy0ErrOracle sampleState).tr =
      Ev.trace "Dispose Initiated ..." ::
        (List.range 0).map Ev.destroy ++ [Ev.destroy 0] ++
        [Ev.trace "Error while destroying ...", Ev.trace "err",
         Ev.trace "Dispose Completed"] :=
  ⟨(claim3_amended_dispose sampleConfig okOracle sampleState).2.1 (fun t _ => rfl),
   (claim3_amended_dispose sampleConfig destroy0ErrOracle sampleState).2.2 0
     (.external "tunnel down") (by decide) rfl
     (fun s hs => absurd hs (Nat.not_lt_zero s))⟩

/-- Counterexample to C2 as stated: `resizeWindow` has no try/catch — when
the underlying `windowHandles()` call rejects, the operation's promise
rejects with that error instead of catching it. -/
theorem claim2_counterexample :
    (resizeWindow windowErrOracle sampleState "b1" 1024 768).res =
      .error (.external "boom") := rfl

/-- C2 (amended): only `closeBrowser` (around `quit()`) and `dispose`
(around the destroy loop) wrap their underlying calls in try/catch with
trace logging, so those two never reject; `resizeWindow`,
`maximizeWindow`, `_takeScreenshot`/`takeScreenshot`, `reportJobResult`
and `openBrowser` propagate errors from their underlying calls (and
`openBrowser` itself throws the authentication error and rethrows the
capability-parsing error). -/
theorem claim2_amended_error_handling (cfg : Config) (o : Oracle) (st : ProviderState)
    (id pageUrl browserName screenshotPath jobResult jobData : String) (w h : Nat) :
    (closeBrowser o st id).res = .ok () ∧
    (dispose cfg o st).res = .ok () ∧
    (∀ e d, findDriver st.openedBrowsers id = some d →
      o.windowHandlesRes id = .error e →
      (resizeWindow o st id w h).res = .error e ∧
      (maximizeWindow o st id).res = .error e) ∧
    (∀ e d, findDriver st.openedBrowsers id = some d →
      o.screenshotRes id = .error e →
      (takeScreenshotInternal o st id screenshotPath).res = .error e ∧
      (takeScreenshot o st id screenshotPath).res = .error e) ∧
    (∀ e d, findDriver st.openedBrowsers id = some d → truthyStr d.sessionID = true →
      o.updateJobStatusRes = .error e →
      (reportJobResult o st id jobResult jobData).res = .error e) ∧
    ((truthyStr cfg.LT_USERNAME = false ∨ truthyStr cfg.LT_ACCESS_KEY = false) →
      (openBrowser cfg o st id pageUrl browserName).res = .error .ltAuthError) ∧
    (∀ e, truthyStr cfg.LT_USERNAME = true → truthyStr cfg.LT_ACCESS_KEY = true →
      (∀ t, t < cfg.LT_TUNNEL_NUMBER → o.connectRes t = .ok ()) →
      o.parseCapabilitiesRes id browserName = .error e →
      (openBrowser cfg o st id pageUrl browserName).res = .error e) := by
  refine ⟨closeBrowser_res o st id, dispose_res cfg o st, ?_, ?_, ?_, ?_, ?_⟩
  · intro e d hfd he
    constructor <;> simp [resizeWindow, maximizeWindow, hfd, he]
  · intro e d hfd he
    constructor <;> simp [takeScreenshot, takeScreenshotInternal, hfd, he]
  · intro e d hfd htr he
    simp [reportJobResult, hfd, htr, he]
  · intro hcase
    simp [openBrowser, hcase]
  · intro e hu hk hconn hp
    have hauth : ¬(truthyStr cfg.LT_USERNAME = false ∨
        truthyStr cfg.LT_ACCESS_KEY = false) := by simp [hu, hk]
    have hcs := connectSeq_all_ok o cfg.LT_TUNNEL_NUMBER hconn
    simp [openBrowser, hauth, hcs, hp]

/-- Witness for C2 (amended): a concrete rejected `windowHandles()` makes
`resizeWindow` reject, and missing credentials make `openBrowser` reject
with the authentication error, while `closeBrowser` resolves. -/
theorem claim2_witness :
    (resizeWindow windowErrOracle sampleState "b1" 800 600).res =
      .error (.external "boom") ∧
    (openBrowser noUserConfig okOracle emptyState "b1" "http://x" "chrome").res =
      .error .ltAuthError ∧
    (closeBrowser okOracle sampleState "b1").res = .ok () :=
  ⟨((claim2_amended_error_handling sampleConfig windowErrOracle sampleState
      "b1" "http://x" "chrome" "shot.png" "passed" "jobdata" 800 600).2.2.1
      (.external "boom") sampleDriver rfl rfl).1,
   (claim2_amended_error_handling noUserConfig okOracle emptyState
      "b1" "http://x" "chrome" "shot.png" "passed" "jobdata" 800 600).2.2.2.2.2.1
      (Or.inl rfl),
   (claim2_amended_error_handling sampleConfig okOracle sampleState
      "b1" "http://x" "chrome" "shot.png" "passed" "jobdata" 800 600).1⟩

/-- C1: `openBrowser(id, pageUrl, browserName)`: if `LT_USERNAME` or
`LT_ACCESS_KEY` is missing, it throws the authentication error before any
other action (no state change, no event); otherwise it awaits
`_connect(tunnel)` for tunnels 0 .. LT_TUNNEL_NUMBER-1 in increasing order,
then `_parseCapabilities(id, browserName)`, then (when the parsed
capabilities are not an `Error`) `_startBrowser(id, pageUrl, capabilities)`,
in that order. -/
theorem claim1_openBrowser_sequence (cfg : Config) (o : Oracle) (st : ProviderState)
    (id pageUrl browserName : String) :
    ((truthyStr cfg.LT_USERNAME = false ∨ truthyStr cfg.LT_ACCESS_KEY = false) →
      openBrowser cfg o st id pageUrl browserName = ⟨.error .ltAuthError, st, []⟩) ∧
    (truthyStr cfg.LT_USERNAME = true → truthyStr cfg.LT_ACCESS_KEY = true →
      (∀ t, t < cfg.LT_TUNNEL_NUMBER → o.connectRes t = .ok ()) →
      ∀ caps, o.parseCapabilitiesRes id browserName = .ok (.inl caps) →
      ∃ rest, (openBrowser cfg o st id pageUrl browserName).tr =
        (List.range cfg.LT_TUNNEL_NUMBER).map Ev.connect ++
          Ev.parseCapabilities id browserName ::
            ((startBrowser cfg o st id pageUrl caps).tr ++ rest)) := by
  constructor
  · intro hcase
    simp [openBrowser, hcase]
  · intro hu hk hconn caps hp
    have hauth : ¬(truthyStr cfg.LT_USERNAME = false ∨
        truthyStr cfg.LT_ACCESS_KEY = false) := by simp [hu, hk]
    have hcs := connectSeq_all_ok o cfg.LT_TUNNEL_NUMBER hconn
    rcases hsb : (startBrowser cfg o st id pageUrl caps).res with e2 | u2
    · exact ⟨[], by simp [openBrowser, hauth, hcs, hp, hsb]⟩
    · rcases hfd : findDriver
          (startBrowser cfg o st id pageUrl caps).st.openedBrowsers id with _ | d
      · exact ⟨[], by simp [openBrowser, hauth, hcs, hp, hsb, hfd]⟩
      · refine ⟨(if truthyStr cfg.LOG_LT_SESSION_URL = true then
            (writeSessionUrlToFile o (startBrowser cfg o st id pageUrl caps).st
              (" " ++ cfg.AUTOMATION_DASHBOARD_URL ++ "/logs/?sessionID=" ++
                jsToString d.sessionID ++ " ")
              (match cfg.LT_SESSION_LOG_PATH with
                | some p => if p = "" then "sessionUrls.txt" else p
                | none => "sessionUrls.txt")).tr
          else []) ++
          [Ev.trace ("sessionURL" ++ (" " ++ cfg.AUTOMATION_DASHBOARD_URL ++
              "/logs/?sessionID=" ++ jsToString d.sessionID ++ " ")),
           Ev.setUserAgentMetaInfo id (" " ++ cfg.AUTOMATION_DASHBOARD_URL ++
              "/logs/?sessionID=" ++ jsToString d.sessionID ++ " ")], ?_⟩
        simp [openBrowser, hauth, hcs, hp, hsb, hfd]

/-- Witness for C1: missing credentials reject immediately with no events,
and with credentials present the trace is connects 0,1 then the
capabilities parse then the `_startBrowser` events. -/
theorem claim1_witness :
    openBrowser noUserConfig okOracle emptyState "b1" "http://x" "chrome" =
      ⟨.error .ltAuthError, emptyState, []⟩ ∧
    ∃ rest, (openBrowser sampleConfig okOracle emptyState "b1" "http://x" "chrome").tr =
      (List.range 2).map Ev.connect ++
        Ev.parseCapabilities "b1" "chrome" ::
          ((startBrowser sampleConfig okOracle emptyState "b1" "http://x"
              ⟨false, "caps"⟩).tr ++ rest) :=
  ⟨(claim1_openBrowser_sequence noUserConfig okOracle emptyState
      "b1" "http://x" "chrome").1 (Or.inl rfl),
   (claim1_openBrowser_sequence sampleConfig okOracle emptyState
      "b1" "http://x" "chrome").2 rfl rfl (fun _ _ => rfl) ⟨false, "caps"⟩ rfl⟩

/-- C4: the only concurrency the provider creates is one keep-alive interval
timer per session: `WEB_DRIVER_PING_INTERVAL = 30*1000`; `_startBrowser`
installs (on the driver's first `status` event) at most one interval with
exactly that period, stores its id on the driver handle as
`pingIntervalId`, and `closeBrowser(id)` clears exactly that stored timer;
no other operation ever creates or clears a timer. -/
theorem claim4_ping_interval (cfg : Config) (o : Oracle) (st : ProviderState)
    (id url pageUrl browserName screenshotPath jobResult jobData : String)
    (caps : Caps) (w h : Nat) :
    WEB_DRIVER_PING_INTERVAL = 30 * 1000 ∧
    (∀ tid per, Ev.setIntervalEv tid per ∈ (startBrowser cfg o st id url caps).tr →
      tid = o.freshTimerId ∧ per = WEB_DRIVER_PING_INTERVAL) ∧
    (startBrowser cfg o st id url caps).tr.count
      (Ev.setIntervalEv o.freshTimerId WEB_DRIVER_PING_INTERVAL) ≤ 1 ∧
    ((startBrowser cfg o st id url caps).res = .ok () →
      findDriver (startBrowser cfg o st id url caps).st.openedBrowsers id =
        some (startDriver o) ∧
      (o.statusFires = true →
        (startDriver o).pingIntervalId = some o.freshTimerId ∧
        Ev.setIntervalEv o.freshTimerId WEB_DRIVER_PING_INTERVAL ∈
          (startBrowser cfg o st id url caps).tr) ∧
      (o.statusFires = false → (startDriver o).pingIntervalId = none)) ∧
    (∀ tid per,
      Ev.setIntervalEv tid per ∈ (openBrowser cfg o st id pageUrl browserName).tr →
      tid = o.freshTimerId ∧ per = WEB_DRIVER_PING_INTERVAL) ∧
    (∀ d, findDriver st.openedBrowsers id = some d →
      (closeBrowser o st id).tr.count (Ev.clearIntervalEv d.pingIntervalId) = 1 ∧
      (∀ tid?, Ev.clearIntervalEv tid? ∈ (closeBrowser o st id).tr →
        tid? = d.pingIntervalId)) ∧
    (findDriver st.openedBrowsers id = none →
      ∀ tid?, Ev.clearIntervalEv tid? ∉ (closeBrowser o st id).tr) ∧
    (∀ tid per tid?,
      Ev.setIntervalEv tid per ∉ (closeBrowser o st id).tr ∧
      Ev.setIntervalEv tid per ∉ (dispose cfg o st).tr ∧
      Ev.clearIntervalEv tid? ∉ (dispose cfg o st).tr ∧
      Ev.setIntervalEv tid per ∉ (resizeWindow o st id w h).tr ∧
      Ev.clearIntervalEv tid? ∉ (resizeWindow o st id w h).tr ∧
      Ev.setIntervalEv tid per ∉ (maximizeWindow o st id).tr ∧
      Ev.clearIntervalEv tid? ∉ (maximizeWindow o st id).tr ∧
      Ev.setIntervalEv tid per ∉ (takeScreenshotInternal o st id screenshotPath).tr ∧
      Ev.clearIntervalEv tid? ∉ (takeScreenshotInternal o st id screenshotPath).tr ∧
      Ev.setIntervalEv tid per ∉ (takeScreenshot o st id screenshotPath).tr ∧
      Ev.clearIntervalEv tid? ∉ (takeScreenshot o st id screenshotPath).tr ∧
      Ev.setIntervalEv tid per ∉ (reportJobResult o st id jobResult jobData).tr ∧
      Ev.clearIntervalEv tid? ∉ (reportJobResult o st id jobResult jobData).tr ∧
      Ev.setIntervalEv tid per ∉ (init o st).tr ∧
      Ev.clearIntervalEv tid? ∉ (init o st).tr ∧
      Ev.setIntervalEv tid per ∉ (getBrowserList st).tr ∧
      Ev.setIntervalEv tid per ∉ (isValidBrowserName st).tr ∧
      Ev.clearIntervalEv tid? ∉ (startBrowser cfg o st id url caps).tr ∧
      Ev.clearIntervalEv tid? ∉ (openBrowser cfg o st id pageUrl browserName).tr) := by
  refine ⟨rfl,
    fun tid per hm => startBrowser_setInterval_shape cfg o st id url caps tid per hm,
    startBrowser_count_si_le_one cfg o st id url caps o.freshTimerId
      WEB_DRIVER_PING_INTERVAL,
    ?_,
    fun tid per hm => openBrowser_setInterval_shape cfg o st id pageUrl browserName
      tid per hm,
    ?_, ?_, ?_⟩
  · intro hres
    obtain ⟨hinit, hst⟩ := startBrowser_res_ok cfg o st id url caps hres
    refine ⟨?_, ?_, ?_⟩
    · rw [hst]
      exact findDriver_updateDriver_self st.openedBrowsers id (startDriver o)
    · intro hsf
      exact ⟨by simp [startDriver, hsf],
        startBrowser_ok_setInterval cfg o st id url caps hres hsf⟩
    · intro hsf
      simp [startDriver, hsf]
  · intro d hfd
    exact ⟨closeBrowser_clear o st id d hfd,
      fun tid? hm => closeBrowser_clear_shape o st id d hfd tid? hm⟩
  · intro hfd tid?
    exact closeBrowser_no_clear o st id hfd tid?
  · intro tid per tid?
    refine ⟨closeBrowser_no_setInterval o st id tid per,
      (dispose_no_timer cfg o st tid per tid?).1,
      (dispose_no_timer cfg o st tid per tid?).2,
      (resizeWindow_no_timer o st id w h tid per tid?).1,
      (resizeWindow_no_timer o st id w h tid per tid?).2,
      (maximizeWindow_no_timer o st id tid per tid?).1,
      (maximizeWindow_no_timer o st id tid per tid?).2,
      (takeScreenshotInternal_no_timer o st id screenshotPath tid per tid?).1,
      (takeScreenshotInternal_no_timer o st id screenshotPath tid per tid?).2,
      (takeScreenshotInternal_no_timer o st id screenshotPath tid per tid?).1,
      (takeScreenshotInternal_no_timer o st id screenshotPath tid per tid?).2,
      (reportJobResult_no_timer o st id jobResult jobData tid per tid?).1,
      (reportJobResult_no_timer o st id jobResult jobData tid per tid?).2,
      (init_no_timer o st tid per tid?).1,
      (init_no_timer o st tid per tid?).2,
      by simp [getBrowserList],
      by simp [isValidBrowserName],
      startBrowser_no_clearInterval cfg o st id url caps tid?,
      openBrowser_no_clearInterval cfg o st id pageUrl browserName tid?⟩

/-- Witness for C4 at concrete inputs: the ping period, the cleared timer
of a stored session, and the stored driver handle after a successful
`_startBrowser`. -/
theorem claim4_witness :
    (closeBrowser okOracle sampleState "b1").tr.count
      (Ev.clearIntervalEv (some 77)) = 1 ∧
    findDriver (startBrowser sampleConfig okOracle emptyState "b1" "http://x"
        ⟨false, "caps"⟩).st.openedBrowsers "b1" = some (startDriver okOracle) :=
  ⟨((claim4_ping_interval sampleConfig okOracle sampleState
      "b1" "http://x" "http://x" "chrome" "shot.png" "passed" "jobdata"
      ⟨false, "caps"⟩ 800 600).2.2.2.2.2.1 sampleDriver rfl).1,
   ((claim4_ping_interval sampleConfig okOracle emptyState
      "b1" "http://x" "http://x" "chrome" "shot.png" "passed" "jobdata"
      ⟨false, "caps"⟩ 800 600).2.2.2.1 rfl).1⟩

end Provider
